import Mathlib

/-!
# The ES audio decoder adapter (`libavcodec/es_audio_dec.c`)

A shallow embedding of the adapter that drives the channel-oriented ES audio
engine from the generic decoding framework, followed by the properties of
its channel lifecycle and of its packet loop.

Conventions of the embedding.

* C `int`, `int32_t` and `uint32_t` values are `Int`/`Nat`; the places where
  the C arithmetic is undefined (division by zero, `INT_MIN / -1`, a copy
  that leaves the 4096-byte `stream` array) end the call with a `Fault`.
* The process-wide counter `chan` is a 32-bit counter: `chan++` at `INT_MAX`
  wraps to `INT_MIN` (`int32_incr`), and the history of the process goes on.
* The engine (`es_adec_*`) and the host (`ff_get_buffer`, the allocator) are
  external.  Every call made to them is logged as a `Call`; what they answer
  is an argument of the embedded function (`InitEnv`, `FrameEnv`), so a
  statement quantified over these answers covers every engine and host.
* A packet is its byte list; `avpkt->size` is the length of that list.
* The accumulation array `stream` is a map from index to byte; only the
  indices below `STREAM_SIZE` exist in the C program, and a copy that would
  touch another index is a `Fault`.
* The PCM copy into the host frame is recorded as a byte count: neither the
  scratch buffer nor the frame memory is modelled.
-/

namespace EsAudioDec

/-! ## Constants and base types -/

/-- Bit rate used for G.722 when the option is left at 0 (`DEFAULT_G722_BIT_RATE`). -/
def DEFAULT_G722_BIT_RATE : Int := 64000

/-- Bit rate used for G.726 when the option is left at 0 (`DEFAULT_G726_BIT_RATE`). -/
def DEFAULT_G726_BIT_RATE : Int := 32000

/-- Capacity of the scratch decode buffer (`MAX_BUFFER_SIZE`). -/
def MAX_BUFFER_SIZE : Int := 16384

/-- Largest MP3 packet the accumulation buffer is dimensioned for (`MAX_STREAM_LEN`). -/
def MAX_STREAM_LEN : Nat := 2048

/-- Number of bytes of the accumulation array, `MAX_STREAM_LEN * 2`. -/
def STREAM_SIZE : Nat := MAX_STREAM_LEN * 2

/-- Largest value of a C `int32_t`. -/
def INT32_MAX : Int := 2147483647

/-- Smallest value of a C `int32_t`. -/
def INT32_MIN : Int := -2147483648

/-- Modelled from the spec: the four-character tag of `libavutil` (its header
is not part of the sources), `a | b << 8 | c << 16 | d << 24`. -/
def MKTAG (a b c d : Int) : Int := a + b * 2 ^ 8 + c * 2 ^ 16 + d * 2 ^ 24

/-- Modelled from the spec: the "decoder not found" failure of the host
framework, `FFERRTAG(0xF8,'D','E','C')` in `libavutil/error.h`. -/
def AVERROR_DECODER_NOT_FOUND : Int := -(MKTAG 248 68 69 67)

/-- Modelled from the spec: the creation/parse/decode failure of the host
framework, `FFERRTAG('U','N','K','N')` in `libavutil/error.h`. -/
def AVERROR_UNKNOWN : Int := -(MKTAG 85 78 75 78)

/-- Undefined behaviour of the C program, made explicit. -/
inductive Fault
  | division_by_zero
  | signed_overflow
  | out_of_bounds
  deriving DecidableEq, Repr

/-- Result of a call that may run into undefined behaviour. -/
inductive Outcome (α : Type)
  | ok (value : α)
  | fault (f : Fault)
  deriving DecidableEq, Repr

/-- Sequencing of fallible steps: the first fault ends the call. -/
def Outcome.bind {α β : Type} (x : Outcome α) (f : α → Outcome β) : Outcome β :=
  match x with
  | .ok v => f v
  | .fault e => .fault e

/-- The generic codec identifiers the source names; every other identifier
of `enum AVCodecID` is `other`. -/
inductive AVCodecID
  | AV_CODEC_ID_AAC
  | AV_CODEC_ID_MP3
  | AV_CODEC_ID_MP2
  | AV_CODEC_ID_PCM_ALAW
  | AV_CODEC_ID_PCM_MULAW
  | AV_CODEC_ID_ADPCM_G722
  | AV_CODEC_ID_ADPCM_G726
  | AV_CODEC_ID_AMR_NB
  | AV_CODEC_ID_AMR_WB
  | other (raw : Nat)
  deriving DecidableEq, Repr

open AVCodecID

/-- Engine codec families (`es_codec_type` of `CodecTypes.h`). -/
inductive es_codec_type
  | AAC
  | MP3
  | G711
  | G722
  | G726
  | AMR
  | UNKNOW
  deriving DecidableEq, Repr

/-- Law selector of the G.711 attribute. -/
inductive g711_type
  | ALAW
  | ULAW
  deriving DecidableEq, Repr

/-- Transport selector of the AAC attribute; the source only uses ADTS. -/
inductive aac_trans_type
  | AAC_TRANS_TYPE_ADTS
  deriving DecidableEq, Repr

/-- The attribute record handed to `es_adec_create`, one variant per record
type allocated in `get_audio_decoder_attr`, with the fields the source sets. -/
inductive Attr
  | amr (is_wb : Int)
  | g711 (type : g711_type)
  | g722 (bit_rate : Int)
  | g726 (bit_rate : Int)
  | aac (output_format : Int) (profile : Int) (trans_type : aac_trans_type)
  deriving DecidableEq, Repr

/-- Sample formats written by `get_stream_info`; `AV_SAMPLE_FMT_NONE` is the
value before the first parse. -/
inductive AVSampleFormat
  | AV_SAMPLE_FMT_NONE
  | AV_SAMPLE_FMT_U8
  | AV_SAMPLE_FMT_S16
  | AV_SAMPLE_FMT_S32
  deriving DecidableEq, Repr

/-- Channel layouts written by `get_stream_info`; `UNSPEC` is the value left
by `av_channel_layout_uninit`. -/
inductive AVChannelLayout
  | UNSPEC
  | AV_CHANNEL_LAYOUT_MONO
  | AV_CHANNEL_LAYOUT_STEREO
  deriving DecidableEq, Repr

/-- Private state of one channel (`struct ESADECContext`).  `buffer` is the
scratch pointer (`none` is `NULL`), `stream` the byte at each index of the
accumulation array `uint8_t stream[MAX_STREAM_LEN * 2]`. -/
structure ESADECContext where
  chan_id : Int
  bit_rate : Int
  buffer : Option Nat
  buffer_size : Int
  stream : Nat → Nat
  offset : Nat

/-- The fields of the host `AVCodecContext` the adapter reads or writes. -/
structure AVCodecContext where
  codec_id : AVCodecID
  profile : Int
  sample_rate : Int
  frame_size : Int
  ch_layout : AVChannelLayout
  sample_fmt : AVSampleFormat
  priv_data : ESADECContext

/-- A compressed packet: its bytes. -/
structure AVPacket where
  data : List Nat
  deriving DecidableEq, Repr

/-- The packet size `avpkt->size`. -/
def AVPacket.size (p : AVPacket) : Nat := p.data.length

/-- The fields of the host `AVFrame` the adapter writes: the sample count and
the number of bytes copied into `extended_data[0]`. -/
structure AVFrame where
  nb_samples : Int
  copied : Int
  deriving DecidableEq, Repr

/-- Modelled from the spec: the stream description `es_frame_info` filled in
by `es_adec_parse_packets` (its header `CodecTypes.h` is not part of the
sources), with the five fields the adapter reads, each taken as a C `int`. -/
structure es_frame_info where
  sample_rate : Int
  frame_size : Int
  channels : Int
  bit_depth : Int
  decoded_size : Int
  deriving DecidableEq, Repr

/-- Calls the adapter makes to the engine and to the host, with their
arguments.  For the two packet calls `data` is the `size` bytes behind the
pointer that is passed. -/
inductive Call
  | es_adec_init
  | es_adec_create (chan : Int) (type : es_codec_type) (attr : Option Attr)
  | es_adec_destroy (chan : Int)
  | es_adec_parse_packets (chan : Int) (data : List Nat) (size : Nat)
  | es_adec_decode_stream (chan : Int) (data : List Nat) (size : Nat) (capacity : Int)
  | ff_get_buffer (nb_samples : Int)
  | av_free (ptr : Option Nat)
  deriving DecidableEq, Repr

/-- The effective input of a call: the bytes and the length handed to the
engine by a parse or decode call. -/
def Call.input : Call → Option (List Nat × Nat)
  | .es_adec_parse_packets _ data size => some (data, size)
  | .es_adec_decode_stream _ data size _ => some (data, size)
  | _ => none

/-! ## Primitive operations -/

/-- C integer division on `int`: truncating, undefined for a zero divisor and
for `INT_MIN / -1`. -/
def c_div (a b : Int) : Outcome Int :=
  if b = 0 then .fault .division_by_zero
  else if a = INT32_MIN ∧ b = -1 then .fault .signed_overflow
  else .ok (a.tdiv b)

/-- The `n` bytes found at the start of a memory region. -/
def bytes_at (mem : Nat → Nat) (n : Nat) : List Nat := (List.range n).map mem

/-- Memory after writing the first `n` bytes of `src` at `buf + off`. -/
def copy_into (buf : Nat → Nat) (off : Nat) (src : List Nat) (n : Nat) : Nat → Nat :=
  fun i => if off ≤ i ∧ i < off + n then src.getD (i - off) 0 else buf i

/-- Memory after moving the `n` bytes at `buf + src_off` to the start of `buf`. -/
def shift_down (buf : Nat → Nat) (src_off n : Nat) : Nat → Nat :=
  fun i => if i < n then buf (src_off + i) else buf i

/-- The copy `memcpy(buf + off, src, n)` into an array of `cap` bytes:
undefined when the destination range `[off, off + n)` leaves the array. -/
def memcpy_at (cap : Nat) (buf : Nat → Nat) (off : Nat) (src : List Nat) (n : Nat) :
    Outcome (Nat → Nat) :=
  if off + n ≤ cap then .ok (copy_into buf off src n) else .fault .out_of_bounds

/-- The shift `memmove(buf, buf + src_off, n)` inside an array of `cap` bytes:
undefined when the source range `[src_off, src_off + n)` leaves the array. -/
def memmove_front (cap : Nat) (buf : Nat → Nat) (src_off n : Nat) : Outcome (Nat → Nat) :=
  if src_off + n ≤ cap then .ok (shift_down buf src_off n) else .fault .out_of_bounds

/-- The expression `bytes / info.channels / (info.bit_depth / 8)` of
`get_stream_info` and `ff_es_adec_frame`. -/
def samples_of (bytes : Int) (info : es_frame_info) : Outcome Int :=
  (c_div bytes info.channels).bind fun q =>
  (c_div info.bit_depth 8).bind fun w =>
  c_div q w

/-! ## Codec mapping and attributes (lines 36-98) -/

/-- The switch of `convert_codec_id_to_type`. -/
def convert_codec_id_to_type (codec_id : AVCodecID) : es_codec_type :=
  match codec_id with
  | AV_CODEC_ID_AAC => .AAC
  | AV_CODEC_ID_MP3 => .MP3
  | AV_CODEC_ID_MP2 => .MP3
  | AV_CODEC_ID_PCM_ALAW => .G711
  | AV_CODEC_ID_PCM_MULAW => .G711
  | AV_CODEC_ID_ADPCM_G722 => .G722
  | AV_CODEC_ID_ADPCM_G726 => .G726
  | AV_CODEC_ID_AMR_NB => .AMR
  | AV_CODEC_ID_AMR_WB => .AMR
  | other _ => .UNKNOW

/-- The branch chain of `get_audio_decoder_attr`.  `alloc_ok` is the answer of
`av_mallocz`; a failed allocation leaves `attr` at `NULL`, here `none`. -/
def get_audio_decoder_attr (avctx : AVCodecContext) (codec_id : AVCodecID)
    (alloc_ok : Bool) : Option Attr :=
  let s := avctx.priv_data
  if codec_id = AV_CODEC_ID_AMR_NB ∨ codec_id = AV_CODEC_ID_AMR_WB then
    if alloc_ok then some (.amr (if codec_id = AV_CODEC_ID_AMR_WB then 1 else 0)) else none
  else if codec_id = AV_CODEC_ID_PCM_ALAW ∨ codec_id = AV_CODEC_ID_PCM_MULAW then
    if alloc_ok then
      some (.g711 (if codec_id = AV_CODEC_ID_PCM_ALAW then .ALAW else .ULAW))
    else none
  else if codec_id = AV_CODEC_ID_ADPCM_G722 then
    if alloc_ok then
      some (.g722 (if s.bit_rate = 0 then DEFAULT_G722_BIT_RATE else s.bit_rate))
    else none
  else if codec_id = AV_CODEC_ID_ADPCM_G726 then
    if alloc_ok then
      some (.g726 (if s.bit_rate = 0 then DEFAULT_G726_BIT_RATE else s.bit_rate))
    else none
  else if codec_id = AV_CODEC_ID_AAC then
    if alloc_ok then some (.aac 1 avctx.profile .AAC_TRANS_TYPE_ADTS) else none
  else none

/-! ## Channel lifecycle (lines 100-145) -/

/-- Answers of the environment during one `ff_es_adec_init`: whether
`av_mallocz` of the attribute record succeeds, the status of
`es_adec_create`, and the pointer returned by `av_malloc` for the scratch
buffer. -/
structure InitEnv where
  attr_alloc_ok : Bool
  create_ret : Int
  buffer_ptr : Option Nat
  deriving DecidableEq, Repr

/-- What one `ff_es_adec_init` leaves behind: the returned status, the
process-wide `static int32_t chan`, the context, and the calls made. -/
structure InitResult where
  ret : Int
  chan : Int
  avctx : AVCodecContext
  calls : List Call

/-- The increment `chan++` of the `int32_t` counter: one more, and from
`INT_MAX` the wrap to `INT_MIN` of a 32-bit counter.  On the `int32_t` range
this is `(x + 1 + 2 ^ 31) % 2 ^ 32 - 2 ^ 31`. -/
def int32_incr (x : Int) : Int := if x = INT32_MAX then INT32_MIN else x + 1

/-- The function `ff_es_adec_init`; `chan` is the value of its static counter
at entry (1 when the process starts). -/
def ff_es_adec_init (chan : Int) (avctx : AVCodecContext) (env : InitEnv) :
    Outcome InitResult :=
  let codec_id := avctx.codec_id
  let codec_type := convert_codec_id_to_type codec_id
  if codec_type = .UNKNOW then
    .ok { ret := AVERROR_DECODER_NOT_FOUND, chan := chan, avctx := avctx, calls := [] }
  else
    let calls0 : List Call := if chan = 1 then [.es_adec_init] else []
    let attr := get_audio_decoder_attr avctx codec_id env.attr_alloc_ok
    let s := avctx.priv_data
    let calls1 := calls0 ++ [.es_adec_create chan codec_type attr]
    if env.create_ret ≠ 0 then
      .ok { ret := AVERROR_UNKNOWN, chan := chan, avctx := avctx, calls := calls1 }
    else
      .ok { ret := 0
            chan := int32_incr chan
            avctx := { avctx with priv_data :=
              { s with chan_id := chan, buffer_size := MAX_BUFFER_SIZE,
                       buffer := env.buffer_ptr, offset := 0 } }
            calls := calls1 }

/-- Value of the static counter `chan` when the process starts. -/
def chan_start : Int := 1

/-- What one `ff_es_adec_close` does: the returned status and the calls made
(the context itself is left as it is). -/
structure CloseResult where
  ret : Int
  calls : List Call
  deriving DecidableEq, Repr

/-- The function `ff_es_adec_close`. -/
def ff_es_adec_close (avctx : AVCodecContext) : CloseResult :=
  let s := avctx.priv_data
  { ret := 0, calls := [.es_adec_destroy s.chan_id, .av_free s.buffer] }

/-- One lifecycle call issued by the host in a process. -/
inductive Op
  | init (avctx : AVCodecContext) (env : InitEnv)
  | close (avctx : AVCodecContext)

/-- Observable history of a process: the final counter, the channel ids
assigned by the opens that returned 0 (in call order), every call made, and
the fault of an open that did not return, if any (no open faults). -/
structure ProcessLog where
  chan : Int
  ids : List Int
  calls : List Call
  fault : Option Fault
  deriving DecidableEq, Repr

/-- Runs a sequence of lifecycle calls from the counter value `chan`,
threading the static counter from one `ff_es_adec_init` to the next. -/
def run_ops (chan : Int) : List Op → ProcessLog
  | [] => { chan := chan, ids := [], calls := [], fault := none }
  | .init avctx env :: rest =>
    match ff_es_adec_init chan avctx env with
    | .fault f =>
      let t := run_ops chan rest
      { t with fault := some f }
    | .ok r =>
      let t := run_ops r.chan rest
      { t with
        ids := (if r.ret = 0 then [r.avctx.priv_data.chan_id] else []) ++ t.ids
        calls := r.calls ++ t.calls }
  | .close avctx :: rest =>
    let t := run_ops chan rest
    { t with calls := (ff_es_adec_close avctx).calls ++ t.calls }

/-- Whether a lifecycle call is an open. -/
def Op.is_init : Op → Bool
  | .init _ _ => true
  | .close _ => false

/-- Lines 268-275: the eight codec identifiers an `ES_AUDIO_DEC` decoder is
registered for. -/
def registered_ids : List AVCodecID :=
  [AV_CODEC_ID_AAC, AV_CODEC_ID_MP3, AV_CODEC_ID_AMR_NB, AV_CODEC_ID_AMR_WB,
   AV_CODEC_ID_PCM_ALAW, AV_CODEC_ID_PCM_MULAW, AV_CODEC_ID_ADPCM_G722,
   AV_CODEC_ID_ADPCM_G726]

/-- The registered identifiers for which `get_audio_decoder_attr` allocates
an attribute record: all but MP3. -/
def attr_ids : List AVCodecID :=
  [AV_CODEC_ID_AAC, AV_CODEC_ID_AMR_NB, AV_CODEC_ID_AMR_WB,
   AV_CODEC_ID_PCM_ALAW, AV_CODEC_ID_PCM_MULAW, AV_CODEC_ID_ADPCM_G722,
   AV_CODEC_ID_ADPCM_G726]

/-! ## Stream information (lines 147-183) -/

/-- Answers of the environment during one `ff_es_adec_frame`: status and
output of `es_adec_parse_packets`, status of `es_adec_decode_stream` and the
byte count it leaves in `size`, and the status of `ff_get_buffer`. -/
structure FrameEnv where
  parse_ret : Int
  frame_info : es_frame_info
  decode_ret : Int
  decode_size : Int
  get_buffer_ret : Int
  deriving DecidableEq, Repr

/-- What `get_stream_info` leaves behind: status, context, calls made. -/
structure StreamInfoResult where
  ret : Int
  avctx : AVCodecContext
  calls : List Call

/-- The function `get_stream_info` on the `size` bytes `data`. -/
def get_stream_info (avctx : AVCodecContext) (data : List Nat) (size : Nat)
    (env : FrameEnv) : Outcome StreamInfoResult :=
  let s := avctx.priv_data
  let calls : List Call := [.es_adec_parse_packets s.chan_id data size]
  if env.parse_ret < 0 then
    .ok { ret := AVERROR_UNKNOWN, avctx := avctx, calls := calls }
  else
    let frame_info := env.frame_info
    (samples_of frame_info.decoded_size frame_info).bind fun fs =>
    .ok { ret := 0
          avctx := { avctx with
            sample_rate := frame_info.sample_rate
            frame_size := fs
            ch_layout :=
              if frame_info.channels = 1 then .AV_CHANNEL_LAYOUT_MONO
              else .AV_CHANNEL_LAYOUT_STEREO
            sample_fmt :=
              if frame_info.bit_depth = 8 then .AV_SAMPLE_FMT_U8
              else if frame_info.bit_depth = 16 then .AV_SAMPLE_FMT_S16
              else if frame_info.bit_depth = 32 then .AV_SAMPLE_FMT_S32
              else .AV_SAMPLE_FMT_S16 }
          calls := calls }

/-! ## The packet loop (lines 185-239) -/

/-- What one `ff_es_adec_frame` leaves behind: the returned value, the
`*got_frame_ptr` cell, the frame, the context, the calls made. -/
structure FrameResult where
  ret : Int
  got_frame : Int
  frame : AVFrame
  avctx : AVCodecContext
  calls : List Call

/-- Lines 195-203: staging of the input.  Returns the channel state, the
`pkt_size` bytes behind `pkt_data`, and `pkt_size`. -/
def stage_input (codec_id : AVCodecID) (s : ESADECContext) (avpkt : AVPacket) :
    Outcome (ESADECContext × List Nat × Nat) :=
  if codec_id = AV_CODEC_ID_MP3 then
    (memcpy_at STREAM_SIZE s.stream s.offset avpkt.data avpkt.size).bind fun st =>
    .ok ({ s with stream := st, offset := avpkt.size }, bytes_at st s.offset, s.offset)
  else
    .ok (s, avpkt.data, avpkt.size)

/-- Lines 220-222: the shift that follows a successful decode. -/
def shift_stream (codec_id : AVCodecID) (s : ESADECContext) (pkt_size : Nat)
    (avpkt : AVPacket) : Outcome ESADECContext :=
  if codec_id = AV_CODEC_ID_MP3 then
    (memmove_front STREAM_SIZE s.stream pkt_size avpkt.size).bind fun st =>
    .ok { s with stream := st }
  else .ok s

/-- The function `ff_es_adec_frame`.  `frame` and `got_frame` are the values
of `*frame` and `*got_frame_ptr` at entry. -/
def ff_es_adec_frame (avctx : AVCodecContext) (frame : AVFrame) (got_frame : Int)
    (avpkt : AVPacket) (env : FrameEnv) : Outcome FrameResult :=
  (stage_input avctx.codec_id avctx.priv_data avpkt).bind fun (s1, input, pkt_size) =>
  let avctx1 := { avctx with priv_data := s1 }
  if pkt_size = 0 then
    .ok { ret := avpkt.size, got_frame := got_frame, frame := frame,
          avctx := avctx1, calls := [] }
  else
    (get_stream_info avctx1 input pkt_size env).bind fun gi =>
    if gi.ret < 0 then
      .ok { ret := gi.ret, got_frame := got_frame, frame := frame,
            avctx := gi.avctx, calls := gi.calls }
    else
      let calls2 := gi.calls ++
        [.es_adec_decode_stream s1.chan_id input pkt_size s1.buffer_size]
      if env.decode_ret ≠ 0 then
        .ok { ret := AVERROR_UNKNOWN, got_frame := got_frame, frame := frame,
              avctx := gi.avctx, calls := calls2 }
      else
        (shift_stream avctx.codec_id gi.avctx.priv_data pkt_size avpkt).bind fun s2 =>
        let avctx2 := { gi.avctx with priv_data := s2 }
        if env.decode_size = 0 then
          .ok { ret := avpkt.size, got_frame := got_frame, frame := frame,
                avctx := avctx2, calls := calls2 }
        else
          (samples_of env.decode_size env.frame_info).bind fun n =>
          let frame1 := { frame with nb_samples := n }
          let calls3 := calls2 ++ [.ff_get_buffer n]
          if env.get_buffer_ret < 0 then
            .ok { ret := env.get_buffer_ret, got_frame := got_frame, frame := frame1,
                  avctx := avctx2, calls := calls3 }
          else
            .ok { ret := avpkt.size, got_frame := 1,
                  frame := { frame1 with copied := env.decode_size },
                  avctx := avctx2, calls := calls3 }

/-- Lines 197 and 202: the length `pkt_size` of the effective input. -/
def effective_size (avctx : AVCodecContext) (avpkt : AVPacket) : Nat :=
  if avctx.codec_id = AV_CODEC_ID_MP3 then avctx.priv_data.offset else avpkt.size

/-- Lines 196-198 and 201: the bytes of the effective input, as they stand in
memory at entry (the accumulated bytes for MP3, the packet otherwise). -/
def effective_input (avctx : AVCodecContext) (avpkt : AVPacket) : List Nat :=
  if avctx.codec_id = AV_CODEC_ID_MP3 then
    bytes_at avctx.priv_data.stream avctx.priv_data.offset
  else avpkt.data

/-- The engine inputs of one call, in call order. -/
def FrameResult.inputs (r : FrameResult) : List (List Nat × Nat) :=
  r.calls.filterMap Call.input

/-- Answers with which a call that reaches the engine runs to its end:
parse and decode succeed, the parsed channel count and bit depth keep the
sample-count divisions defined, and the host grants the output buffer. -/
def FrameEnv.completes (env : FrameEnv) : Prop :=
  0 ≤ env.parse_ret ∧ env.decode_ret = 0 ∧ 0 ≤ env.get_buffer_ret ∧
    0 < env.frame_info.channels ∧ 8 ≤ env.frame_info.bit_depth

instance (env : FrameEnv) : Decidable env.completes := by
  unfold FrameEnv.completes
  infer_instance

/-- The engine inputs of an MP3 call that completes, given the bytes `prev`
accumulated by the call before it: none when `prev` is empty, otherwise
`prev` handed once to the parser and once to the decoder. -/
def delayed_inputs (prev : List Nat) : List (List Nat × Nat) :=
  if prev.length = 0 then [] else [(prev, prev.length), (prev, prev.length)]

/-- The frame the host passes to every call: nothing decoded yet. -/
def blank_frame : AVFrame := { nb_samples := 0, copied := 0 }

/-- Submits a sequence of packets to one channel, each with the answers the
environment gives during that call; the context is threaded from call to
call and every call starts from a blank frame and `got_frame = 0`. -/
def run_frames (avctx : AVCodecContext) : List (AVPacket × FrameEnv) → Outcome (List FrameResult)
  | [] => .ok []
  | (avpkt, env) :: rest =>
    (ff_es_adec_frame avctx blank_frame 0 avpkt env).bind fun r =>
    (run_frames r.avctx rest).bind fun rs =>
    .ok (r :: rs)

/-! ## Concrete channels, answers and packet sequences -/

/-- A freshly opened MP3 channel: id 1, empty accumulation array, a scratch
buffer of `MAX_BUFFER_SIZE` bytes. -/
def mp3_fresh : AVCodecContext :=
  { codec_id := AV_CODEC_ID_MP3, profile := 0, sample_rate := 0, frame_size := 0,
    ch_layout := .UNSPEC, sample_fmt := .AV_SAMPLE_FMT_NONE,
    priv_data := { chan_id := 1, bit_rate := 0, buffer := some 0, buffer_size := 16384,
                   stream := fun _ => 0, offset := 0 } }

/-- A context as the host hands it to `ff_es_adec_init`, for the codec `id`:
zeroed private data, no option set. -/
def unopened (id : AVCodecID) : AVCodecContext :=
  { codec_id := id, profile := 0, sample_rate := 0, frame_size := 0,
    ch_layout := .UNSPEC, sample_fmt := .AV_SAMPLE_FMT_NONE,
    priv_data := { chan_id := 0, bit_rate := 0, buffer := none, buffer_size := 0,
                   stream := fun _ => 0, offset := 0 } }

/-- Answers of a call in which everything works: 16-bit stereo at 44.1 kHz,
4608 decoded bytes. -/
def env_ok : FrameEnv :=
  { parse_ret := 0, frame_info := ⟨44100, 1152, 2, 16, 4608⟩, decode_ret := 0,
    decode_size := 4608, get_buffer_ret := 0 }

/-- Answers of a call in which parse and decode succeed and the host then
refuses the output buffer (`AVERROR(ENOMEM)`). -/
def env_no_buffer : FrameEnv := { env_ok with get_buffer_ret := -12 }

/-- Answers of a call in which parse succeeds and reports zero channels. -/
def env_no_channels : FrameEnv :=
  { env_ok with frame_info := ⟨44100, 1152, 0, 16, 4608⟩ }

/-- Answers of a call in which `es_adec_parse_packets` fails. -/
def env_parse_fails : FrameEnv := { env_ok with parse_ret := -1 }

/-- Answers of a call in which `es_adec_decode_stream` fails. -/
def env_decode_fails : FrameEnv := { env_ok with decode_ret := -1 }

/-- Two packets, both calls completing. -/
def steps_two_ok : List (AVPacket × FrameEnv) := [(⟨[1, 2]⟩, env_ok), (⟨[3]⟩, env_ok)]

/-- Two packets; during the second call the engine succeeds and the host
refuses the output buffer. -/
def steps_no_buffer : List (AVPacket × FrameEnv) :=
  [(⟨[1, 2]⟩, env_ok), (⟨[3]⟩, env_no_buffer)]

/-- Two packets; during the second call the parse succeeds with zero channels. -/
def steps_no_channels : List (AVPacket × FrameEnv) :=
  [(⟨[1, 2]⟩, env_ok), (⟨[3]⟩, env_no_channels)]

/-- An opened channel for the codec `id`: id 1, empty accumulation array, a
scratch buffer of `MAX_BUFFER_SIZE` bytes. -/
def opened (id : AVCodecID) : AVCodecContext :=
  { codec_id := id, profile := 0, sample_rate := 0, frame_size := 0,
    ch_layout := .UNSPEC, sample_fmt := .AV_SAMPLE_FMT_NONE,
    priv_data := { chan_id := 1, bit_rate := 0, buffer := some 0, buffer_size := 16384,
                   stream := fun _ => 0, offset := 0 } }

/-- An MP3 channel whose previous call accumulated the packet `prev`. -/
def mp3_holding (prev : List Nat) : AVCodecContext :=
  { mp3_fresh with priv_data :=
      { mp3_fresh.priv_data with stream := fun i => prev.getD i 0, offset := prev.length } }

/-- Three packets, the parse failing during the call that submits the second. -/
def steps_parse_fails : List (AVPacket × FrameEnv) :=
  [(⟨[1, 2]⟩, env_ok), (⟨[3, 4, 5]⟩, env_parse_fails), (⟨[6]⟩, env_ok)]

/-- Three packets, the decode failing during the call that submits the second. -/
def steps_decode_fails : List (AVPacket × FrameEnv) :=
  [(⟨[1, 2]⟩, env_ok), (⟨[3, 4, 5]⟩, env_decode_fails), (⟨[6]⟩, env_ok)]

/-- The same three packets, every call completing. -/
def steps_all_ok : List (AVPacket × FrameEnv) :=
  [(⟨[1, 2]⟩, env_ok), (⟨[3, 4, 5]⟩, env_ok), (⟨[6]⟩, env_ok)]

/-- The packets P1 (100 bytes), P2 (150 bytes) and P3 (empty, end of stream),
every call completing. -/
def steps_end_of_stream : List (AVPacket × FrameEnv) :=
  [(⟨List.replicate 100 1⟩, env_ok), (⟨List.replicate 150 2⟩, env_ok), (⟨[]⟩, env_ok)]

/-- Answers of an open in which every allocation and the creation succeed. -/
def init_ok : InitEnv := { attr_alloc_ok := true, create_ret := 0, buffer_ptr := some 4096 }

/-- Answers of an open in which `es_adec_create` fails. -/
def init_create_fails : InitEnv := { init_ok with create_ret := -1 }

/-- Answers of an open in which the attribute record cannot be allocated and
the engine accepts the creation all the same. -/
def init_no_attr_memory : InitEnv := { init_ok with attr_alloc_ok := false }

/-- Two opens of an AAC stream in one process, the first creation failing. -/
def ops_retry_after_failure : List Op :=
  [.init (unopened AV_CODEC_ID_AAC) init_create_fails,
   .init (unopened AV_CODEC_ID_AAC) init_ok]

/-- The engine type an attribute record belongs to: the type of the record
allocated in each branch of `get_audio_decoder_attr`. -/
def Attr.type : Attr → es_codec_type
  | .amr _ => .AMR
  | .g711 _ => .G711
  | .g722 _ => .G722
  | .g726 _ => .G726
  | .aac _ _ _ => .AAC

/-- A context as the host hands it to `ff_es_adec_init` for the codec `id`,
with the `bit_rate` option set to `b`. -/
def with_bit_rate (id : AVCodecID) (b : Int) : AVCodecContext :=
  { unopened id with priv_data := { (unopened id).priv_data with bit_rate := b } }

/-- Answers of a parse that reports 24 bits per sample. -/
def env_24_bits : FrameEnv := { env_ok with frame_info := ⟨44100, 1152, 2, 24, 4608⟩ }

/-- Answers of a parse that reports 4 bits per sample. -/
def env_4_bits : FrameEnv := { env_ok with frame_info := ⟨8000, 160, 1, 4, 80⟩ }

/-- Answers of a parse that reports 0 bits per sample. -/
def env_0_bits : FrameEnv := { env_ok with frame_info := ⟨8000, 160, 1, 0, 80⟩ }

/-- The call gets as far as `es_adec_decode_stream`: the staging completes
with a non-empty effective input, and `get_stream_info` completes after a
successful parse. -/
def reaches_decode (avctx : AVCodecContext) (avpkt : AVPacket) (env : FrameEnv) : Prop :=
  ∃ s1 input pkt_size gi,
    stage_input avctx.codec_id avctx.priv_data avpkt = .ok (s1, input, pkt_size) ∧
    pkt_size ≠ 0 ∧
    get_stream_info { avctx with priv_data := s1 } input pkt_size env = .ok gi ∧
    0 ≤ gi.ret

/-- Answers of a call in which parse and decode succeed and the decoder
produces no byte. -/
def env_zero_bytes : FrameEnv := { env_ok with decode_size := 0 }

/-- The contexts at the start of each call of a packet sequence, up to and
including the call that does not return, if there is one. -/
def entry_contexts (avctx : AVCodecContext) :
    List (AVPacket × FrameEnv) → List AVCodecContext
  | [] => []
  | (avpkt, env) :: rest =>
    avctx ::
      (match ff_es_adec_frame avctx blank_frame 0 avpkt env with
       | .ok r => entry_contexts r.avctx rest
       | .fault _ => [])

/-- Answers of a call in which the decoder produces 4610 bytes of 16-bit
stereo, two bytes more than a whole number of samples. -/
def env_ragged : FrameEnv := { env_ok with decode_size := 4610 }

/-- The same successful open of an AAC stream, `2147483646 + 2 = 2 ^ 31`
times in one process. -/
def ops_past_int_max : List Op :=
  List.replicate (2147483646 + 2) (.init (unopened AV_CODEC_ID_AAC) init_ok)

/-! ## Memory and arithmetic lemmas -/

/-- Reading `n` bytes gives `n` bytes. -/
theorem bytes_at_length (f : Nat → Nat) (n : Nat) : (bytes_at f n).length = n := by
  simp [bytes_at]

/-- Memories that agree below `n` hold the same first `n` bytes. -/
theorem bytes_at_congr {f g : Nat → Nat} {n : Nat} (h : ∀ i, i < n → f i = g i) :
    bytes_at f n = bytes_at g n := by
  unfold bytes_at
  apply List.map_congr_left
  intro i hi
  exact h i (List.mem_range.mp hi)

/-- Reading a byte list back from the memory it fills gives the list. -/
theorem bytes_at_getD (l : List Nat) : bytes_at (fun i => l.getD i 0) l.length = l := by
  apply List.ext_getElem
  · simp [bytes_at]
  · intro i h1 h2
    simp [bytes_at, List.getElem?_eq_getElem h2]

/-- Bytes below the destination offset survive the staging copy. -/
theorem bytes_at_copy_into_below (buf : Nat → Nat) (off : Nat) (src : List Nat) (n : Nat) :
    bytes_at (copy_into buf off src n) off = bytes_at buf off := by
  apply bytes_at_congr
  intro i hi
  have : ¬ (off ≤ i ∧ i < off + n) := by omega
  simp [copy_into, this]

/-- After the staging copy and the shift by the old offset, the array starts
with the packet. -/
theorem bytes_at_shift_copy (buf : Nat → Nat) (off : Nat) (src : List Nat) :
    bytes_at (shift_down (copy_into buf off src src.length) off src.length) src.length
      = src := by
  refine (bytes_at_congr ?_).trans (bytes_at_getD src)
  intro i hi
  have : off ≤ off + i ∧ off + i < off + src.length := by omega
  simp [shift_down, copy_into, hi, this]

/-- A copy at offset 0 leaves the packet at the start of the array. -/
theorem bytes_at_copy_head (buf : Nat → Nat) (src : List Nat) :
    bytes_at (copy_into buf 0 src src.length) src.length = src := by
  refine (bytes_at_congr ?_).trans (bytes_at_getD src)
  intro i hi
  simp [copy_into, hi]

/-- With a positive channel count and at least 8 bits per sample, every
division of the sample-count expression is defined. -/
theorem samples_of_defined (bytes : Int) (info : es_frame_info)
    (hc : 0 < info.channels) (hb : 8 ≤ info.bit_depth) :
    samples_of bytes info =
      .ok ((bytes.tdiv info.channels).tdiv (info.bit_depth.tdiv 8)) := by
  have h1 : info.channels ≠ 0 := by omega
  have h2 : info.channels ≠ -1 := by omega
  have h3 : 0 < info.bit_depth.tdiv 8 := by
    rw [Int.tdiv_eq_ediv (by omega) (by omega)]
    omega
  have h4 : info.bit_depth.tdiv 8 ≠ 0 := by omega
  have h5 : info.bit_depth.tdiv 8 ≠ -1 := by omega
  simp [samples_of, c_div, Outcome.bind, h1, h2, h4, h5]

/-- The failure code of the packet loop is negative. -/
theorem AVERROR_UNKNOWN_neg : AVERROR_UNKNOWN < 0 := by decide

/-- The shift after a decode is defined when an MP3 packet fits behind the
accumulated bytes. -/
theorem shift_stream_defined (avctx : AVCodecContext) (avpkt : AVPacket)
    (hfit : avctx.codec_id = AV_CODEC_ID_MP3 →
      avctx.priv_data.offset + avpkt.size ≤ STREAM_SIZE) (s : ESADECContext) :
    ∃ s2, shift_stream avctx.codec_id s (effective_size avctx avpkt) avpkt = .ok s2 := by
  by_cases hcodec : avctx.codec_id = AV_CODEC_ID_MP3
  · simp only [shift_stream, effective_size, hcodec, memmove_front, hfit hcodec, if_true,
      Outcome.bind]
    exact ⟨_, rfl⟩
  · simp only [shift_stream, hcodec, if_false]
    exact ⟨_, rfl⟩

/-! ## Paths of the packet loop -/

/-- Staging hands on `effective_input` and `effective_size` and leaves the
channel id and the scratch capacity alone. -/
theorem stage_input_eq (avctx : AVCodecContext) (avpkt : AVPacket)
    (hfit : avctx.codec_id = AV_CODEC_ID_MP3 →
      avctx.priv_data.offset + avpkt.size ≤ STREAM_SIZE) :
    ∃ s1, stage_input avctx.codec_id avctx.priv_data avpkt =
        .ok (s1, effective_input avctx avpkt, effective_size avctx avpkt) ∧
      s1.chan_id = avctx.priv_data.chan_id ∧ s1.buffer_size = avctx.priv_data.buffer_size := by
  by_cases hcodec : avctx.codec_id = AV_CODEC_ID_MP3
  · simp only [stage_input, hcodec, memcpy_at, hfit hcodec, if_true, Outcome.bind,
      effective_size, effective_input, bytes_at_copy_into_below]
    exact ⟨_, rfl, rfl, rfl⟩
  · simp only [stage_input, hcodec, if_false, effective_size, effective_input]
    exact ⟨_, rfl, rfl, rfl⟩

/-- Every path of `ff_es_adec_frame`, for a packet that fits the accumulation
array and a parse that keeps the divisions defined: the returned value, the
calls made and the `got_frame` cell. -/
theorem frame_paths (avctx : AVCodecContext) (frame : AVFrame) (got_frame : Int)
    (avpkt : AVPacket) (env : FrameEnv)
    (hfit : avctx.codec_id = AV_CODEC_ID_MP3 →
      avctx.priv_data.offset + avpkt.size ≤ STREAM_SIZE)
    (hinfo : 0 ≤ env.parse_ret → 0 < env.frame_info.channels ∧ 8 ≤ env.frame_info.bit_depth) :
    ∃ r, ff_es_adec_frame avctx frame got_frame avpkt env = .ok r ∧
      r.ret =
        (if effective_size avctx avpkt = 0 then (avpkt.size : Int)
         else if env.parse_ret < 0 then AVERROR_UNKNOWN
         else if env.decode_ret ≠ 0 then AVERROR_UNKNOWN
         else if env.decode_size = 0 then (avpkt.size : Int)
         else if env.get_buffer_ret < 0 then env.get_buffer_ret
         else (avpkt.size : Int)) ∧
      r.calls =
        (if effective_size avctx avpkt = 0 then []
         else
          Call.es_adec_parse_packets avctx.priv_data.chan_id (effective_input avctx avpkt)
              (effective_size avctx avpkt) ::
            (if env.parse_ret < 0 then []
             else
              Call.es_adec_decode_stream avctx.priv_data.chan_id (effective_input avctx avpkt)
                  (effective_size avctx avpkt) avctx.priv_data.buffer_size ::
                (if env.decode_ret ≠ 0 ∨ env.decode_size = 0 then []
                 else
                  [Call.ff_get_buffer
                    ((env.decode_size.tdiv env.frame_info.channels).tdiv
                      (env.frame_info.bit_depth.tdiv 8))]))) ∧
      r.got_frame =
        (if effective_size avctx avpkt ≠ 0 ∧ 0 ≤ env.parse_ret ∧ env.decode_ret = 0 ∧
            env.decode_size ≠ 0 ∧ 0 ≤ env.get_buffer_ret then 1 else got_frame) := by
  have hAV : AVERROR_UNKNOWN < 0 := AVERROR_UNKNOWN_neg
  obtain ⟨s1, hst, hchan, hbuf⟩ := stage_input_eq avctx avpkt hfit
  obtain ⟨s2, hs2⟩ := shift_stream_defined avctx avpkt hfit s1
  simp only [ff_es_adec_frame, hst, Outcome.bind, hchan, hbuf]
  by_cases h0 : effective_size avctx avpkt = 0
  · simp only [h0, if_true]
    exact ⟨_, rfl, rfl, rfl, by simp⟩
  · simp only [h0, if_false]
    by_cases hp : env.parse_ret < 0
    · simp only [get_stream_info, hp, if_true, hAV]
      refine ⟨_, rfl, rfl, ?_, ?_⟩
      · simp [hchan]
      · have : ¬ 0 ≤ env.parse_ret := by omega
        simp [this]
    · obtain ⟨hc, hb⟩ := hinfo (by omega)
      have hp2 : 0 ≤ env.parse_ret := by omega
      simp only [get_stream_info, hp, if_false, samples_of_defined _ _ hc hb, Outcome.bind,
        lt_irrefl]
      by_cases hd : env.decode_ret = 0
      · simp only [hd, ne_eq, not_true_eq_false, if_false, hs2]
        by_cases hz : env.decode_size = 0
        · simp only [hz, if_true]
          refine ⟨_, rfl, rfl, ?_, ?_⟩
          · simp [hchan, hbuf]
          · simp
        · simp only [hz, if_false]
          by_cases hg : env.get_buffer_ret < 0
          · simp only [hg, if_true]
            refine ⟨_, rfl, rfl, ?_, ?_⟩
            · simp [hchan, hbuf]
            · have : ¬ 0 ≤ env.get_buffer_ret := by omega
              simp [this]
          · simp only [hg, if_false]
            refine ⟨_, rfl, rfl, ?_, ?_⟩
            · simp [hchan, hbuf]
            · have : 0 ≤ env.get_buffer_ret := by omega
              simp [this, h0, hp2]
      · simp only [hd, ne_eq, not_false_eq_true, if_true]
        refine ⟨_, rfl, rfl, ?_, ?_⟩
        · simp [hchan, hbuf]
        · simp [hd]
/-! ## The MP3 one-packet delay -/

/-- One call on an MP3 channel whose answers let it complete: the engine is
handed the bytes accumulated by the previous call and the new packet takes
their place. -/
theorem mp3_step (avctx : AVCodecContext) (frame : AVFrame) (got_frame : Int)
    (avpkt : AVPacket) (env : FrameEnv)
    (hcodec : avctx.codec_id = AV_CODEC_ID_MP3)
    (hoff : avctx.priv_data.offset ≤ MAX_STREAM_LEN)
    (hsize : avpkt.size ≤ MAX_STREAM_LEN)
    (henv : env.completes) :
    ∃ r, ff_es_adec_frame avctx frame got_frame avpkt env = .ok r ∧
      r.ret = avpkt.size ∧
      r.inputs =
        delayed_inputs (bytes_at avctx.priv_data.stream avctx.priv_data.offset) ∧
      r.avctx.codec_id = AV_CODEC_ID_MP3 ∧
      r.avctx.priv_data.offset = avpkt.size ∧
      bytes_at r.avctx.priv_data.stream avpkt.size = avpkt.data := by
  obtain ⟨hp, hd, hg, hc, hb⟩ := henv
  have hcap : avctx.priv_data.offset + avpkt.size ≤ STREAM_SIZE := by
    simp only [MAX_STREAM_LEN] at hoff hsize
    simp only [STREAM_SIZE, MAX_STREAM_LEN]
    omega
  have hp' : ¬ env.parse_ret < 0 := by omega
  have hg' : ¬ env.get_buffer_ret < 0 := by omega
  simp only [delayed_inputs, bytes_at_length]
  by_cases h0 : avctx.priv_data.offset = 0
  · have hcap0 : 0 + avpkt.size ≤ STREAM_SIZE := by rw [h0] at hcap; exact hcap
    simp only [ff_es_adec_frame, stage_input, hcodec, memcpy_at, hcap0, h0, if_true,
      Outcome.bind]
    exact ⟨_, rfl, rfl, rfl, rfl, rfl, bytes_at_copy_head _ _⟩
  · by_cases hz : env.decode_size = 0
    · simp only [ff_es_adec_frame, stage_input, hcodec, memcpy_at, hcap, h0, if_true,
        if_false, Outcome.bind, get_stream_info, hp', samples_of_defined _ _ hc hb,
        lt_irrefl, hd, ne_eq, not_true_eq_false, shift_stream, memmove_front, hz]
      refine ⟨_, rfl, rfl, ?_, rfl, rfl, bytes_at_shift_copy _ _ _⟩
      simp only [FrameResult.inputs, List.filterMap, Call.input, List.cons_append,
        List.nil_append, bytes_at_copy_into_below]
    · simp only [ff_es_adec_frame, stage_input, hcodec, memcpy_at, hcap, h0, if_true,
        if_false, Outcome.bind, get_stream_info, hp', samples_of_defined _ _ hc hb,
        lt_irrefl, hd, ne_eq, not_true_eq_false, shift_stream, memmove_front, hz, hg']
      refine ⟨_, rfl, rfl, ?_, rfl, rfl, bytes_at_shift_copy _ _ _⟩
      simp only [FrameResult.inputs, List.filterMap, Call.input, List.cons_append,
        List.nil_append, bytes_at_copy_into_below]

/-- A run of completing calls on an MP3 channel: every call returns its own
packet size; the first is handed what the array held at entry, every later
one the packet of the call before it. -/
theorem run_frames_mp3 (steps : List (AVPacket × FrameEnv)) :
    ∀ avctx : AVCodecContext, avctx.codec_id = AV_CODEC_ID_MP3 →
      avctx.priv_data.offset ≤ MAX_STREAM_LEN →
      (∀ st ∈ steps, st.1.size ≤ MAX_STREAM_LEN ∧ st.2.completes) →
      ∃ rs, run_frames avctx steps = .ok rs ∧ rs.length = steps.length ∧
        (∀ q r, steps[0]? = some q → rs[0]? = some r →
          r.ret = (q.1.size : Int) ∧
          r.inputs =
            delayed_inputs (bytes_at avctx.priv_data.stream avctx.priv_data.offset)) ∧
        (∀ k p q r, steps[k]? = some p → steps[k + 1]? = some q → rs[k + 1]? = some r →
          r.ret = (q.1.size : Int) ∧ r.inputs = delayed_inputs p.1.data) := by
  induction steps with
  | nil =>
    intro avctx _ _ _
    exact ⟨[], rfl, rfl, by simp, by simp⟩
  | cons st rest ih =>
    intro avctx hcodec hoff hsteps
    obtain ⟨hsz, henv⟩ := hsteps st (List.mem_cons_self _ _)
    obtain ⟨r0, hr0, hret, hin, hc0, hoff0, hbytes⟩ :=
      mp3_step avctx blank_frame 0 st.1 st.2 hcodec hoff hsz henv
    have hoff0' : r0.avctx.priv_data.offset ≤ MAX_STREAM_LEN := by rw [hoff0]; exact hsz
    obtain ⟨rs, hrs, hlen, hhead, htail⟩ :=
      ih r0.avctx hc0 hoff0' (fun x hx => hsteps x (List.mem_cons_of_mem _ hx))
    refine ⟨r0 :: rs, ?_, ?_, ?_, ?_⟩
    · obtain ⟨pkt, env⟩ := st
      simp only [run_frames, hr0, hrs, Outcome.bind]
    · simp [hlen]
    · intro q r hq hr
      simp only [List.getElem?_cons_zero, Option.some.injEq] at hq hr
      subst hq hr
      exact ⟨hret, hin⟩
    · intro k p q r hp hq hr
      rw [List.getElem?_cons_succ] at hq hr
      cases k with
      | zero =>
        simp only [List.getElem?_cons_zero, Option.some.injEq] at hp
        subst hp
        have h := hhead q r hq hr
        rw [hoff0, hbytes] at h
        exact h
      | succ j =>
        rw [List.getElem?_cons_succ] at hp
        exact htail j p q r hp hq hr

/-! ## Lifecycle lemmas -/

/-- Every registered identifier is mapped to an engine type. -/
theorem registered_ids_mapped (id : AVCodecID) (h : id ∈ registered_ids) :
    convert_codec_id_to_type id ≠ .UNKNOW := by
  simp only [registered_ids, List.mem_cons, List.mem_singleton, List.not_mem_nil, or_false] at h
  rcases h with h | h | h | h | h | h | h | h <;> subst h <;> decide

/-- The open of an identifier the mapper rejects. -/
theorem init_unmapped (chan : Int) (avctx : AVCodecContext) (env : InitEnv)
    (h : convert_codec_id_to_type avctx.codec_id = .UNKNOW) :
    ff_es_adec_init chan avctx env =
      .ok { ret := AVERROR_DECODER_NOT_FOUND, chan := chan, avctx := avctx, calls := [] } := by
  simp [ff_es_adec_init, h]

/-- The open of a mapped identifier when `es_adec_create` fails. -/
theorem init_create_failed (chan : Int) (avctx : AVCodecContext) (env : InitEnv)
    (h : convert_codec_id_to_type avctx.codec_id ≠ .UNKNOW) (hc : env.create_ret ≠ 0) :
    ff_es_adec_init chan avctx env =
      .ok { ret := AVERROR_UNKNOWN, chan := chan, avctx := avctx,
            calls := (if chan = 1 then [Call.es_adec_init] else []) ++
              [.es_adec_create chan (convert_codec_id_to_type avctx.codec_id)
                (get_audio_decoder_attr avctx avctx.codec_id env.attr_alloc_ok)] } := by
  simp [ff_es_adec_init, h, hc]

/-- The open of a mapped identifier when `es_adec_create` succeeds. -/
theorem init_created (chan : Int) (avctx : AVCodecContext) (env : InitEnv)
    (h : convert_codec_id_to_type avctx.codec_id ≠ .UNKNOW) (hc : env.create_ret = 0)
    (hchan : chan ≠ INT32_MAX) :
    ff_es_adec_init chan avctx env =
      .ok { ret := 0, chan := chan + 1,
            avctx := { avctx with priv_data :=
              { avctx.priv_data with chan_id := chan, buffer_size := MAX_BUFFER_SIZE,
                                     buffer := env.buffer_ptr, offset := 0 } },
            calls := (if chan = 1 then [Call.es_adec_init] else []) ++
              [.es_adec_create chan (convert_codec_id_to_type avctx.codec_id)
                (get_audio_decoder_attr avctx avctx.codec_id env.attr_alloc_ok)] } := by
  simp [ff_es_adec_init, h, hc, int32_incr, hchan]

/-- On the `int32_t` range the counter increment is addition modulo `2 ^ 32`. -/
theorem int32_incr_eq_mod (x : Int) (h1 : INT32_MIN ≤ x) (h2 : x ≤ INT32_MAX) :
    int32_incr x = (x + 1 + 2 ^ 31) % 2 ^ 32 - 2 ^ 31 := by
  simp only [INT32_MIN, INT32_MAX] at h1 h2
  unfold int32_incr
  split_ifs with h
  · subst h; decide
  · simp only [INT32_MAX] at h
    omega

/-- The open of a mapped identifier when `es_adec_create` succeeds, at any
counter value. -/
theorem init_created_any (chan : Int) (avctx : AVCodecContext) (env : InitEnv)
    (h : convert_codec_id_to_type avctx.codec_id ≠ .UNKNOW) (hc : env.create_ret = 0) :
    ff_es_adec_init chan avctx env =
      .ok { ret := 0, chan := int32_incr chan,
            avctx := { avctx with priv_data :=
              { avctx.priv_data with chan_id := chan, buffer_size := MAX_BUFFER_SIZE,
                                     buffer := env.buffer_ptr, offset := 0 } },
            calls := (if chan = 1 then [Call.es_adec_init] else []) ++
              [.es_adec_create chan (convert_codec_id_to_type avctx.codec_id)
                (get_audio_decoder_attr avctx avctx.codec_id env.attr_alloc_ok)] } := by
  simp [ff_es_adec_init, h, hc]

/-- An open always returns. -/
theorem ff_es_adec_init_returns (chan : Int) (avctx : AVCodecContext) (env : InitEnv) :
    ∃ r, ff_es_adec_init chan avctx env = .ok r := by
  by_cases hu : convert_codec_id_to_type avctx.codec_id = .UNKNOW
  · exact ⟨_, init_unmapped chan avctx env hu⟩
  · by_cases hc : env.create_ret = 0
    · exact ⟨_, init_created_any chan avctx env hu hc⟩
    · exact ⟨_, init_create_failed chan avctx env hu hc⟩

/-- Every returning open either assigns the current counter value and
increments the counter, or fails and leaves the counter alone. -/
theorem init_counter (chan : Int) (avctx : AVCodecContext) (env : InitEnv) (r : InitResult)
    (h : ff_es_adec_init chan avctx env = .ok r) :
    (r.ret = 0 ∧ r.avctx.priv_data.chan_id = chan ∧ r.chan = int32_incr chan) ∨
    (r.ret ≠ 0 ∧ r.chan = chan) := by
  by_cases hu : convert_codec_id_to_type avctx.codec_id = .UNKNOW
  · rw [init_unmapped chan avctx env hu] at h
    injection h with h
    subst h
    right
    exact ⟨show AVERROR_DECODER_NOT_FOUND ≠ 0 by decide, rfl⟩
  · by_cases hc : env.create_ret = 0
    · rw [init_created_any chan avctx env hu hc] at h
      injection h with h
      subst h
      left
      exact ⟨rfl, rfl, rfl⟩
    · rw [init_create_failed chan avctx env hu hc] at h
      injection h with h
      subst h
      right
      exact ⟨show AVERROR_UNKNOWN ≠ 0 by decide, rfl⟩

/-- While the counter does not pass `INT_MAX`, the ids assigned from counter
value `chan` on are at least `chan` and strictly increasing. -/
theorem run_ops_ids (ops : List Op) :
    ∀ chan : Int, chan + (run_ops chan ops).ids.length ≤ INT32_MAX + 1 →
      (∀ x ∈ (run_ops chan ops).ids, chan ≤ x) ∧
      (run_ops chan ops).ids.Pairwise (· < ·) := by
  induction ops with
  | nil => intro chan _; simp [run_ops]
  | cons op rest ih =>
    intro chan hb
    cases op with
    | close avctx =>
      simp only [run_ops] at hb ⊢
      exact ih chan hb
    | init avctx env =>
      cases h : ff_es_adec_init chan avctx env with
      | fault f =>
        simp only [run_ops, h] at hb ⊢
        exact ih chan hb
      | ok r =>
        rcases init_counter chan avctx env r h with ⟨h0, hid, hch⟩ | ⟨h0, hch⟩
        · simp only [run_ops, h, h0, if_true, List.singleton_append, hid,
            List.length_cons, Nat.cast_add, Nat.cast_one] at hb
          simp only [run_ops, h, h0, if_true, List.singleton_append, hid,
            List.mem_cons, List.pairwise_cons]
          by_cases hm : chan = INT32_MAX
          · have hlen : (run_ops r.chan rest).ids.length = 0 := by omega
            have hnil : (run_ops r.chan rest).ids = [] := List.eq_nil_of_length_eq_zero hlen
            rw [hnil]
            simp
          · have hinc : r.chan = chan + 1 := by rw [hch]; simp [int32_incr, hm]
            obtain ⟨hge, hpw⟩ := ih r.chan (by omega)
            refine ⟨?_, ?_, hpw⟩
            · intro x hx
              rcases hx with rfl | hx
              · exact le_refl _
              · have := hge x hx
                omega
            · intro x hx
              have := hge x hx
              omega
        · simp only [run_ops, h, h0, if_false, List.nil_append, hch] at hb ⊢
          exact ih chan hb

/-- No open faults, so no history records a fault. -/
theorem run_ops_no_fault (ops : List Op) : ∀ chan : Int, (run_ops chan ops).fault = none := by
  induction ops with
  | nil => intro chan; rfl
  | cons op rest ih =>
    intro chan
    cases op with
    | close avctx => simpa [run_ops] using ih chan
    | init avctx env =>
      obtain ⟨r, hr⟩ := ff_es_adec_init_returns chan avctx env
      simpa [run_ops, hr] using ih r.chan

/-- The ids of a history in two parts: those of the first part, then those
of the second part run from the counter the first part leaves. -/
theorem run_ops_ids_append (a b : List Op) :
    ∀ chan : Int, (run_ops chan (a ++ b)).ids =
      (run_ops chan a).ids ++ (run_ops (run_ops chan a).chan b).ids := by
  induction a with
  | nil => intro chan; simp [run_ops]
  | cons op rest ih =>
    intro chan
    cases op with
    | close avctx => simpa [run_ops] using ih chan
    | init avctx env =>
      obtain ⟨r, hr⟩ := ff_es_adec_init_returns chan avctx env
      simp [run_ops, hr, ih r.chan]

/-- The counter after `n` successful opens from `chan`, while it stays at most
`INT_MAX`. -/
theorem run_ops_repeat_open (avctx : AVCodecContext) (env : InitEnv)
    (hm : convert_codec_id_to_type avctx.codec_id ≠ .UNKNOW) (hc : env.create_ret = 0) :
    ∀ (n : Nat) (chan : Int), chan + n ≤ INT32_MAX →
      (run_ops chan (List.replicate n (.init avctx env))).chan = chan + n := by
  intro n
  induction n with
  | zero => intro chan _; simp [run_ops]
  | succ k ih =>
    intro chan hb
    have hne : chan ≠ INT32_MAX := by
      simp only [INT32_MAX, Nat.cast_add, Nat.cast_one] at hb ⊢
      omega
    have hk := ih (chan + 1) (by simp only [Nat.cast_add, Nat.cast_one] at hb; omega)
    simp only [List.replicate_succ, run_ops, init_created chan avctx env hm hc hne, hk,
      Nat.cast_add, Nat.cast_one]
    omega

/-- Dropping the closes from a history changes no assigned id. -/
theorem run_ops_ids_without_close (ops : List Op) :
    ∀ chan : Int, (run_ops chan (ops.filter Op.is_init)).ids = (run_ops chan ops).ids := by
  induction ops with
  | nil => intro chan; rfl
  | cons op rest ih =>
    intro chan
    cases op with
    | close avctx => simpa [run_ops, Op.is_init] using ih chan
    | init avctx env =>
      cases h : ff_es_adec_init chan avctx env with
      | fault f => simpa [run_ops, Op.is_init, h] using ih chan
      | ok r => simp [run_ops, Op.is_init, h, ih r.chan]

/-- The mapper rejects every identifier that is neither registered nor MP2. -/
theorem unmapped_of_not_named (id : AVCodecID) (hreg : id ∉ registered_ids)
    (hmp2 : id ≠ AV_CODEC_ID_MP2) : convert_codec_id_to_type id = .UNKNOW := by
  cases id <;> first | rfl | exact absurd rfl hmp2 | exact absurd (by decide) hreg

/-- Every identifier with an attribute record is mapped to an engine type. -/
theorem attr_ids_mapped (id : AVCodecID) (h : id ∈ attr_ids) :
    convert_codec_id_to_type id ≠ .UNKNOW := by
  simp only [attr_ids, List.mem_cons, List.mem_singleton, List.not_mem_nil, or_false] at h
  rcases h with h | h | h | h | h | h | h <;> subst h <;> decide

/-- A failed `av_mallocz` leaves the attribute pointer at `NULL`. -/
theorem attr_none_of_alloc_failure (avctx : AVCodecContext) (id : AVCodecID) :
    get_audio_decoder_attr avctx id false = none := by
  simp [get_audio_decoder_attr]

/-! ## The packet loop: claims C1 to C5 -/

/-- Claim C3 fails on the code for MP3.  Packets `[1, 2]`, `[3, 4, 5]`, `[6]`
on a fresh MP3 channel: when the parse (or the decode) fails during the
second call, the shift of lines 220-222 is skipped, the accumulated bytes
left behind are `[1, 2, 3]` and the third call hands `[1, 2, 3]` to the
engine; after a successful second call they are `[3, 4, 5]`, the bytes of
the second packet. -/
theorem C3_failed_call_leaves_stale_bytes :
    (∃ rs, run_frames mp3_fresh steps_parse_fails = .ok rs ∧
      rs.map (fun r => r.ret) = [2, AVERROR_UNKNOWN, 1] ∧
      rs.map (fun r => bytes_at r.avctx.priv_data.stream r.avctx.priv_data.offset) =
        [[1, 2], [1, 2, 3], [6]] ∧
      rs.map (fun r => r.inputs) =
        [[], [([1, 2], 2)], [([1, 2, 3], 3), ([1, 2, 3], 3)]]) ∧
    (∃ rs, run_frames mp3_fresh steps_decode_fails = .ok rs ∧
      rs.map (fun r => r.ret) = [2, AVERROR_UNKNOWN, 1] ∧
      rs.map (fun r => bytes_at r.avctx.priv_data.stream r.avctx.priv_data.offset) =
        [[1, 2], [1, 2, 3], [6]] ∧
      rs.map (fun r => r.inputs) =
        [[], [([1, 2], 2), ([1, 2], 2)], [([1, 2, 3], 3), ([1, 2, 3], 3)]]) ∧
    (∃ rs, run_frames mp3_fresh steps_all_ok = .ok rs ∧
      rs.map (fun r => r.ret) = [2, 3, 1] ∧
      rs.map (fun r => bytes_at r.avctx.priv_data.stream r.avctx.priv_data.offset) =
        [[1, 2], [3, 4, 5], [6]] ∧
      rs.map (fun r => r.inputs) =
        [[], [([1, 2], 2), ([1, 2], 2)], [([3, 4, 5], 3), ([3, 4, 5], 3)]]) :=
  ⟨⟨_, rfl, rfl, rfl, rfl⟩, ⟨_, rfl, rfl, rfl, rfl⟩, ⟨_, rfl, rfl, rfl, rfl⟩⟩

/-- A zero-size packet on an MP3 channel that holds `offset > 0` accumulated
bytes: `ff_es_adec_frame` calls `es_adec_parse_packets` on exactly those
bytes and, when the parse succeeds, `es_adec_decode_stream` on the same
bytes; it returns 0 when parse and decode succeed and either nothing is
produced or `ff_get_buffer` succeeds. -/
theorem mp3_zero_size_call (avctx : AVCodecContext) (frame : AVFrame)
    (got_frame : Int) (avpkt : AVPacket) (env : FrameEnv)
    (hcodec : avctx.codec_id = AV_CODEC_ID_MP3)
    (hprev : 0 < avctx.priv_data.offset)
    (hoff : avctx.priv_data.offset ≤ MAX_STREAM_LEN)
    (hempty : avpkt.size = 0)
    (hinfo : 0 ≤ env.parse_ret →
      0 < env.frame_info.channels ∧ 8 ≤ env.frame_info.bit_depth) :
    ∃ r, ff_es_adec_frame avctx frame got_frame avpkt env = .ok r ∧
      r.calls.head? = some (.es_adec_parse_packets avctx.priv_data.chan_id
        (bytes_at avctx.priv_data.stream avctx.priv_data.offset) avctx.priv_data.offset) ∧
      (0 ≤ env.parse_ret →
        Call.es_adec_decode_stream avctx.priv_data.chan_id
          (bytes_at avctx.priv_data.stream avctx.priv_data.offset) avctx.priv_data.offset
          avctx.priv_data.buffer_size ∈ r.calls) ∧
      (0 ≤ env.parse_ret → env.decode_ret = 0 →
        (env.decode_size = 0 ∨ 0 ≤ env.get_buffer_ret) → r.ret = 0) := by
  have hfit : avctx.codec_id = AV_CODEC_ID_MP3 →
      avctx.priv_data.offset + avpkt.size ≤ STREAM_SIZE := by
    intro _
    simp only [MAX_STREAM_LEN] at hoff
    simp only [STREAM_SIZE, MAX_STREAM_LEN, hempty]
    omega
  obtain ⟨r, hr, hret, hcalls, _⟩ := frame_paths avctx frame got_frame avpkt env hfit hinfo
  have h0 : avctx.priv_data.offset ≠ 0 := by omega
  simp only [effective_size, effective_input, hcodec, if_true, h0, if_false, hempty]
    at hret hcalls
  refine ⟨r, hr, ?_, ?_, ?_⟩
  · rw [hcalls]; rfl
  · intro hp
    have hp' : ¬ env.parse_ret < 0 := by omega
    rw [hcalls]
    simp [hp']
  · intro hp hd hzg
    have hp' : ¬ env.parse_ret < 0 := by omega
    rw [hret]
    simp only [hp', if_false, hd, ne_eq, not_true_eq_false]
    rcases hzg with hz | hg
    · simp [hz]
    · have hg' : ¬ env.get_buffer_ret < 0 := by omega
      simp [hg']

/-- One call on an MP3 channel that meets no parse or decode failure: either
no byte was accumulated at entry, or parse and decode succeed (with a
positive channel count and at least 8 bits).  The call returns, and the
accumulated bytes it leaves are those of its packet. -/
theorem mp3_call_accumulates (avctx : AVCodecContext) (frame : AVFrame) (got_frame : Int)
    (avpkt : AVPacket) (env : FrameEnv)
    (hcodec : avctx.codec_id = AV_CODEC_ID_MP3)
    (hoff : avctx.priv_data.offset ≤ MAX_STREAM_LEN)
    (hsize : avpkt.size ≤ MAX_STREAM_LEN)
    (hgood : avctx.priv_data.offset = 0 ∨
      (0 ≤ env.parse_ret ∧ env.decode_ret = 0 ∧
        0 < env.frame_info.channels ∧ 8 ≤ env.frame_info.bit_depth)) :
    ∃ r, ff_es_adec_frame avctx frame got_frame avpkt env = .ok r ∧
      r.avctx.codec_id = AV_CODEC_ID_MP3 ∧
      r.avctx.priv_data.offset = avpkt.size ∧
      bytes_at r.avctx.priv_data.stream avpkt.size = avpkt.data ∧
      r.avctx.priv_data.chan_id = avctx.priv_data.chan_id ∧
      r.avctx.priv_data.buffer_size = avctx.priv_data.buffer_size := by
  have hcap : avctx.priv_data.offset + avpkt.size ≤ STREAM_SIZE := by
    simp only [MAX_STREAM_LEN] at hoff hsize
    simp only [STREAM_SIZE, MAX_STREAM_LEN]
    omega
  by_cases h0 : avctx.priv_data.offset = 0
  · have hcap0 : 0 + avpkt.size ≤ STREAM_SIZE := by rw [h0] at hcap; exact hcap
    simp only [ff_es_adec_frame, stage_input, hcodec, memcpy_at, hcap0, h0, if_true,
      Outcome.bind]
    exact ⟨_, rfl, rfl, rfl, bytes_at_copy_head _ _, rfl, rfl⟩
  · rcases hgood with hg | ⟨hp, hd, hc, hb⟩
    · exact absurd hg h0
    · have hp' : ¬ env.parse_ret < 0 := by omega
      by_cases hz : env.decode_size = 0
      · simp only [ff_es_adec_frame, stage_input, hcodec, memcpy_at, hcap, h0, if_true,
          if_false, Outcome.bind, get_stream_info, hp', samples_of_defined _ _ hc hb,
          lt_irrefl, hd, ne_eq, not_true_eq_false, shift_stream, memmove_front, hz]
        exact ⟨_, rfl, rfl, rfl, bytes_at_shift_copy _ _ _, rfl, rfl⟩
      · by_cases hg : env.get_buffer_ret < 0
        · simp only [ff_es_adec_frame, stage_input, hcodec, memcpy_at, hcap, h0, if_true,
            if_false, Outcome.bind, get_stream_info, hp', samples_of_defined _ _ hc hb,
            lt_irrefl, hd, ne_eq, not_true_eq_false, shift_stream, memmove_front, hz, hg]
          exact ⟨_, rfl, rfl, rfl, bytes_at_shift_copy _ _ _, rfl, rfl⟩
        · simp only [ff_es_adec_frame, stage_input, hcodec, memcpy_at, hcap, h0, if_true,
            if_false, Outcome.bind, get_stream_info, hp', samples_of_defined _ _ hc hb,
            lt_irrefl, hd, ne_eq, not_true_eq_false, shift_stream, memmove_front, hz, hg]
          exact ⟨_, rfl, rfl, rfl, bytes_at_shift_copy _ _ _, rfl, rfl⟩

/-- Claim C5: on a freshly opened MP3 channel (`offset = 0`), for every first
packet of `N ≤ 2048` bytes and whatever the engine would answer,
`ff_es_adec_frame` returns `N`, makes no call at all (no parse, no decode),
leaves `got_frame` and the frame as they were, and leaves `offset = N` with
`stream[0..N)` equal to the bytes of the packet. -/
theorem C5_first_packet_is_only_accumulated (avctx : AVCodecContext) (frame : AVFrame)
    (got_frame : Int) (avpkt : AVPacket) (env : FrameEnv)
    (hcodec : avctx.codec_id = AV_CODEC_ID_MP3)
    (hfresh : avctx.priv_data.offset = 0)
    (hsize : avpkt.size ≤ MAX_STREAM_LEN) :
    ∃ r, ff_es_adec_frame avctx frame got_frame avpkt env = .ok r ∧
      r.calls = [] ∧ r.got_frame = got_frame ∧ r.frame = frame ∧
      r.ret = avpkt.size ∧
      r.avctx.priv_data.offset = avpkt.size ∧
      bytes_at r.avctx.priv_data.stream avpkt.size = avpkt.data := by
  have hcap : 0 + avpkt.size ≤ STREAM_SIZE := by
    simp only [MAX_STREAM_LEN] at hsize
    simp only [STREAM_SIZE, MAX_STREAM_LEN]
    omega
  simp only [ff_es_adec_frame, stage_input, hcodec, hfresh, memcpy_at, hcap, if_true,
    Outcome.bind]
  exact ⟨_, rfl, rfl, rfl, rfl, rfl, rfl, bytes_at_copy_head _ _⟩

/-- Claim C5 on the packet `[1, 2, 3]` submitted to a fresh MP3 channel,
with answers that would make the engine fail. -/
theorem C5_first_packet_is_only_accumulated_witness :
    mp3_fresh.codec_id = AV_CODEC_ID_MP3 ∧ mp3_fresh.priv_data.offset = 0 ∧
    (⟨[1, 2, 3]⟩ : AVPacket).size ≤ MAX_STREAM_LEN ∧
    ∃ r, ff_es_adec_frame mp3_fresh blank_frame 0 ⟨[1, 2, 3]⟩ env_parse_fails = .ok r ∧
      r.calls = [] ∧ r.got_frame = 0 ∧ r.frame = blank_frame ∧
      r.ret = ((⟨[1, 2, 3]⟩ : AVPacket).size : Int) ∧
      r.avctx.priv_data.offset = (⟨[1, 2, 3]⟩ : AVPacket).size ∧
      bytes_at r.avctx.priv_data.stream (⟨[1, 2, 3]⟩ : AVPacket).size = [1, 2, 3] :=
  ⟨rfl, rfl, by decide,
    C5_first_packet_is_only_accumulated mp3_fresh blank_frame 0 ⟨[1, 2, 3]⟩ env_parse_fails
      rfl rfl (by decide)⟩

/-! ## The channel lifecycle: claims C6 to C10 -/

/-- Claim C6 fails on the code.  Two opens of an AAC stream in one process,
`es_adec_create` failing during the first: the counter is still 1 at the
second open, and `es_adec_init` is invoked a second time. -/
theorem C6_engine_init_repeated_after_failed_create :
    (run_ops chan_start ops_retry_after_failure).calls =
      [.es_adec_init, .es_adec_create 1 .AAC (some (.aac 1 0 .AAC_TRANS_TYPE_ADTS)),
       .es_adec_init, .es_adec_create 1 .AAC (some (.aac 1 0 .AAC_TRANS_TYPE_ADTS))] ∧
    (run_ops chan_start ops_retry_after_failure).calls.count .es_adec_init = 2 ∧
    (run_ops chan_start ops_retry_after_failure).ids = [1] ∧
    (run_ops chan_start ops_retry_after_failure).fault = none := by
  decide

/-- Claim C8, as amended: for every codec identifier that is neither one of
the eight registered identifiers nor `AV_CODEC_ID_MP2`, `ff_es_adec_init`
returns `AVERROR_DECODER_NOT_FOUND`, makes no call (neither `es_adec_init`
nor `es_adec_create`), and leaves the process-wide counter and the context
unchanged. -/
theorem C8_unmapped_identifier_is_rejected (chan : Int) (avctx : AVCodecContext)
    (env : InitEnv)
    (hreg : avctx.codec_id ∉ registered_ids) (hmp2 : avctx.codec_id ≠ AV_CODEC_ID_MP2) :
    ff_es_adec_init chan avctx env =
      .ok { ret := AVERROR_DECODER_NOT_FOUND, chan := chan, avctx := avctx, calls := [] } :=
  init_unmapped chan avctx env (unmapped_of_not_named _ hreg hmp2)

/-- The amended C8 on the identifier 0 (`AV_CODEC_ID_NONE`). -/
theorem C8_unmapped_identifier_is_rejected_witness :
    (unopened (other 0)).codec_id ∉ registered_ids ∧
    (unopened (other 0)).codec_id ≠ AV_CODEC_ID_MP2 ∧
    ff_es_adec_init chan_start (unopened (other 0)) init_ok =
      .ok { ret := AVERROR_DECODER_NOT_FOUND, chan := chan_start,
            avctx := unopened (other 0), calls := [] } :=
  ⟨by decide, by decide,
    C8_unmapped_identifier_is_rejected chan_start (unopened (other 0)) init_ok (by decide)
      (by decide)⟩

/-- Claim C8 as stated fails: `AV_CODEC_ID_MP2` is outside the eight
registered identifiers, yet the open maps it to the engine type MP3, calls
`es_adec_init` and `es_adec_create`, returns 0 and takes channel id 1, the
counter moving to 2. -/
theorem C8_counterexample_mp2 :
    AV_CODEC_ID_MP2 ∉ registered_ids ∧
    ∃ r, ff_es_adec_init chan_start (unopened AV_CODEC_ID_MP2) init_ok = .ok r ∧
      r.ret = 0 ∧ r.calls = [.es_adec_init, .es_adec_create 1 .MP3 none] ∧
      r.chan = 2 ∧ r.avctx.priv_data.chan_id = 1 :=
  ⟨by decide, _, rfl, rfl, rfl, rfl, rfl⟩

/-- Claim C9: for every registered codec identifier, when `es_adec_create`
returns a non-zero status `ff_es_adec_init` returns `AVERROR_UNKNOWN` (a
negative value) and changes no state: the process-wide counter is the same
and so is the context, in particular `chan_id`, `buffer`, `buffer_size` and
`offset`. -/
theorem C9_failed_create_changes_nothing (chan : Int) (avctx : AVCodecContext)
    (env : InitEnv)
    (hid : avctx.codec_id ∈ registered_ids) (hc : env.create_ret ≠ 0) :
    ∃ r, ff_es_adec_init chan avctx env = .ok r ∧
      r.ret = AVERROR_UNKNOWN ∧ r.ret < 0 ∧ r.chan = chan ∧ r.avctx = avctx ∧
      r.avctx.priv_data.chan_id = avctx.priv_data.chan_id ∧
      r.avctx.priv_data.buffer = avctx.priv_data.buffer ∧
      r.avctx.priv_data.buffer_size = avctx.priv_data.buffer_size ∧
      r.avctx.priv_data.offset = avctx.priv_data.offset :=
  ⟨_, init_create_failed chan avctx env (registered_ids_mapped _ hid) hc, rfl,
    AVERROR_UNKNOWN_neg, rfl, rfl, rfl, rfl, rfl, rfl⟩

/-- Claim C9 on a G.726 open whose creation is refused. -/
theorem C9_failed_create_changes_nothing_witness :
    (unopened AV_CODEC_ID_ADPCM_G726).codec_id ∈ registered_ids ∧
    init_create_fails.create_ret ≠ 0 ∧
    ∃ r, ff_es_adec_init chan_start (unopened AV_CODEC_ID_ADPCM_G726) init_create_fails
        = .ok r ∧
      r.ret = AVERROR_UNKNOWN ∧ r.ret < 0 ∧ r.chan = chan_start ∧
      r.avctx = unopened AV_CODEC_ID_ADPCM_G726 ∧
      r.avctx.priv_data.chan_id = (unopened AV_CODEC_ID_ADPCM_G726).priv_data.chan_id ∧
      r.avctx.priv_data.buffer = (unopened AV_CODEC_ID_ADPCM_G726).priv_data.buffer ∧
      r.avctx.priv_data.buffer_size =
        (unopened AV_CODEC_ID_ADPCM_G726).priv_data.buffer_size ∧
      r.avctx.priv_data.offset = (unopened AV_CODEC_ID_ADPCM_G726).priv_data.offset :=
  ⟨by decide, by decide,
    C9_failed_create_changes_nothing chan_start (unopened AV_CODEC_ID_ADPCM_G726)
      init_create_fails (by decide) (by decide)⟩

/-- Claim C10, as amended: for every codec identifier with an attribute
record, when allocating the record fails `get_audio_decoder_attr` returns no
attribute and `ff_es_adec_init` still calls `es_adec_create`, with a null
attribute.  The open then follows the engine status: non-zero gives
`AVERROR_UNKNOWN`, which differs from `AVERROR_DECODER_NOT_FOUND`, with the
counter and the context unchanged; zero gives 0 with the channel id assigned
and the counter incremented. -/
theorem C10_attribute_allocation_failure_reaches_engine (chan : Int)
    (avctx : AVCodecContext) (env : InitEnv)
    (hid : avctx.codec_id ∈ attr_ids) (halloc : env.attr_alloc_ok = false)
    (hchan : chan < INT32_MAX) :
    get_audio_decoder_attr avctx avctx.codec_id env.attr_alloc_ok = none ∧
    ∃ r, ff_es_adec_init chan avctx env = .ok r ∧
      Call.es_adec_create chan (convert_codec_id_to_type avctx.codec_id) none ∈ r.calls ∧
      (env.create_ret ≠ 0 →
        r.ret = AVERROR_UNKNOWN ∧ r.ret ≠ AVERROR_DECODER_NOT_FOUND ∧ r.chan = chan ∧
          r.avctx = avctx) ∧
      (env.create_ret = 0 →
        r.ret = 0 ∧ r.avctx.priv_data.chan_id = chan ∧ r.chan = chan + 1) := by
  have hm := attr_ids_mapped _ hid
  have hattr : get_audio_decoder_attr avctx avctx.codec_id env.attr_alloc_ok = none := by
    rw [halloc]; exact attr_none_of_alloc_failure _ _
  refine ⟨hattr, ?_⟩
  by_cases hc : env.create_ret = 0
  · have hne : chan ≠ INT32_MAX := by omega
    refine ⟨_, init_created chan avctx env hm hc hne, ?_, ?_, ?_⟩
    · simp [hattr]
    · intro h; exact absurd hc h
    · intro _; exact ⟨rfl, rfl, rfl⟩
  · refine ⟨_, init_create_failed chan avctx env hm hc, ?_, ?_, ?_⟩
    · simp [hattr]
    · intro _
      exact ⟨rfl, show AVERROR_UNKNOWN ≠ AVERROR_DECODER_NOT_FOUND by decide, rfl, rfl⟩
    · intro h; exact absurd h hc

/-- The amended C10 on an AAC open whose attribute allocation fails. -/
theorem C10_attribute_allocation_failure_reaches_engine_witness :
    (unopened AV_CODEC_ID_AAC).codec_id ∈ attr_ids ∧
    init_no_attr_memory.attr_alloc_ok = false ∧ chan_start < INT32_MAX ∧
    get_audio_decoder_attr (unopened AV_CODEC_ID_AAC) (unopened AV_CODEC_ID_AAC).codec_id
      init_no_attr_memory.attr_alloc_ok = none ∧
    ∃ r, ff_es_adec_init chan_start (unopened AV_CODEC_ID_AAC) init_no_attr_memory = .ok r ∧
      Call.es_adec_create chan_start
        (convert_codec_id_to_type (unopened AV_CODEC_ID_AAC).codec_id) none ∈ r.calls ∧
      (init_no_attr_memory.create_ret ≠ 0 →
        r.ret = AVERROR_UNKNOWN ∧ r.ret ≠ AVERROR_DECODER_NOT_FOUND ∧ r.chan = chan_start ∧
          r.avctx = unopened AV_CODEC_ID_AAC) ∧
      (init_no_attr_memory.create_ret = 0 →
        r.ret = 0 ∧ r.avctx.priv_data.chan_id = chan_start ∧ r.chan = chan_start + 1) :=
  ⟨by decide, rfl, by decide,
    C10_attribute_allocation_failure_reaches_engine chan_start (unopened AV_CODEC_ID_AAC)
      init_no_attr_memory (by decide) rfl (by decide)⟩

/-- Claim C10 as stated fails: an AAC open whose attribute allocation fails
still invokes `es_adec_create` (with a null attribute); the engine accepting
it, the open returns 0 and channel id 1 is assigned. -/
theorem C10_counterexample_open_succeeds :
    AV_CODEC_ID_AAC ∈ attr_ids ∧ init_no_attr_memory.attr_alloc_ok = false ∧
    ∃ r, ff_es_adec_init chan_start (unopened AV_CODEC_ID_AAC) init_no_attr_memory = .ok r ∧
      r.ret = 0 ∧ r.calls = [.es_adec_init, .es_adec_create 1 .AAC none] ∧
      r.avctx.priv_data.chan_id = 1 ∧ r.chan = 2 :=
  ⟨by decide, rfl, _, rfl, rfl, rfl, rfl, rfl⟩

/-! ## Attributes and stream information: claims C11 to C13 -/

/-- Claim C11: for every configured `bit_rate` `b` (in particular every `b` in
`[0, INT_MAX]`, the range of the option), when the allocation succeeds, the attribute built for G.722 carries 64000 if `b = 0`
and `b` otherwise, the one built for G.726 carries 32000 if `b = 0` and `b`
otherwise, and that attribute is the one `ff_es_adec_init` passes to
`es_adec_create`. -/
theorem C11_bit_rate_default_or_verbatim (avctx : AVCodecContext) (b : Int)
    (hbr : avctx.priv_data.bit_rate = b) :
    get_audio_decoder_attr avctx AV_CODEC_ID_ADPCM_G722 true =
      some (.g722 (if b = 0 then 64000 else b)) ∧
    get_audio_decoder_attr avctx AV_CODEC_ID_ADPCM_G726 true =
      some (.g726 (if b = 0 then 32000 else b)) ∧
    (∀ (chan : Int) (env : InitEnv), avctx.codec_id = AV_CODEC_ID_ADPCM_G722 →
      env.attr_alloc_ok = true → chan < INT32_MAX →
      ∃ r, ff_es_adec_init chan avctx env = .ok r ∧
        Call.es_adec_create chan .G722 (some (.g722 (if b = 0 then 64000 else b)))
          ∈ r.calls) ∧
    (∀ (chan : Int) (env : InitEnv), avctx.codec_id = AV_CODEC_ID_ADPCM_G726 →
      env.attr_alloc_ok = true → chan < INT32_MAX →
      ∃ r, ff_es_adec_init chan avctx env = .ok r ∧
        Call.es_adec_create chan .G726 (some (.g726 (if b = 0 then 32000 else b)))
          ∈ r.calls) := by
  have h722 : get_audio_decoder_attr avctx AV_CODEC_ID_ADPCM_G722 true =
      some (.g722 (if b = 0 then 64000 else b)) := by
    simp [get_audio_decoder_attr, hbr, DEFAULT_G722_BIT_RATE]
  have h726 : get_audio_decoder_attr avctx AV_CODEC_ID_ADPCM_G726 true =
      some (.g726 (if b = 0 then 32000 else b)) := by
    simp [get_audio_decoder_attr, hbr, DEFAULT_G726_BIT_RATE]
  refine ⟨h722, h726, ?_, ?_⟩
  · intro chan env hid halloc hchan
    have hm : convert_codec_id_to_type avctx.codec_id ≠ .UNKNOW := by rw [hid]; decide
    have hne : chan ≠ INT32_MAX := by omega
    by_cases hc : env.create_ret = 0
    · refine ⟨_, init_created chan avctx env hm hc hne, ?_⟩
      simp [hid, halloc, h722, convert_codec_id_to_type]
    · refine ⟨_, init_create_failed chan avctx env hm hc, ?_⟩
      simp [hid, halloc, h722, convert_codec_id_to_type]
  · intro chan env hid halloc hchan
    have hm : convert_codec_id_to_type avctx.codec_id ≠ .UNKNOW := by rw [hid]; decide
    have hne : chan ≠ INT32_MAX := by omega
    by_cases hc : env.create_ret = 0
    · refine ⟨_, init_created chan avctx env hm hc hne, ?_⟩
      simp [hid, halloc, h726, convert_codec_id_to_type]
    · refine ⟨_, init_create_failed chan avctx env hm hc, ?_⟩
      simp [hid, halloc, h726, convert_codec_id_to_type]

/-- Claim C11 on a G.722 context configured with `bit_rate = 48000`: the
override is passed verbatim. -/
theorem C11_bit_rate_default_or_verbatim_witness :
    (with_bit_rate AV_CODEC_ID_ADPCM_G722 48000).priv_data.bit_rate = 48000 ∧
    get_audio_decoder_attr (with_bit_rate AV_CODEC_ID_ADPCM_G722 48000)
      AV_CODEC_ID_ADPCM_G722 true = some (.g722 (if (48000 : Int) = 0 then 64000 else 48000)) ∧
    get_audio_decoder_attr (with_bit_rate AV_CODEC_ID_ADPCM_G722 48000)
      AV_CODEC_ID_ADPCM_G726 true = some (.g726 (if (48000 : Int) = 0 then 32000 else 48000)) ∧
    (∀ (chan : Int) (env : InitEnv),
      (with_bit_rate AV_CODEC_ID_ADPCM_G722 48000).codec_id = AV_CODEC_ID_ADPCM_G722 →
      env.attr_alloc_ok = true → chan < INT32_MAX →
      ∃ r, ff_es_adec_init chan (with_bit_rate AV_CODEC_ID_ADPCM_G722 48000) env = .ok r ∧
        Call.es_adec_create chan .G722
          (some (.g722 (if (48000 : Int) = 0 then 64000 else 48000))) ∈ r.calls) ∧
    (∀ (chan : Int) (env : InitEnv),
      (with_bit_rate AV_CODEC_ID_ADPCM_G722 48000).codec_id = AV_CODEC_ID_ADPCM_G726 →
      env.attr_alloc_ok = true → chan < INT32_MAX →
      ∃ r, ff_es_adec_init chan (with_bit_rate AV_CODEC_ID_ADPCM_G722 48000) env = .ok r ∧
        Call.es_adec_create chan .G726
          (some (.g726 (if (48000 : Int) = 0 then 32000 else 48000))) ∈ r.calls) :=
  ⟨rfl, C11_bit_rate_default_or_verbatim (with_bit_rate AV_CODEC_ID_ADPCM_G722 48000) 48000 rfl⟩

/-- The parse call `get_stream_info` makes. -/
theorem get_stream_info_of_samples (avctx : AVCodecContext) (data : List Nat) (size : Nat)
    (env : FrameEnv) (fs : Int) (hp : 0 ≤ env.parse_ret)
    (hfs : samples_of env.frame_info.decoded_size env.frame_info = .ok fs) :
    get_stream_info avctx data size env =
      .ok { ret := 0
            avctx := { avctx with
              sample_rate := env.frame_info.sample_rate
              frame_size := fs
              ch_layout :=
                if env.frame_info.channels = 1 then .AV_CHANNEL_LAYOUT_MONO
                else .AV_CHANNEL_LAYOUT_STEREO
              sample_fmt :=
                if env.frame_info.bit_depth = 8 then .AV_SAMPLE_FMT_U8
                else if env.frame_info.bit_depth = 16 then .AV_SAMPLE_FMT_S16
                else if env.frame_info.bit_depth = 32 then .AV_SAMPLE_FMT_S32
                else .AV_SAMPLE_FMT_S16 }
            calls := [.es_adec_parse_packets avctx.priv_data.chan_id data size] } := by
  have hp' : ¬ env.parse_ret < 0 := by omega
  simp only [get_stream_info, hp', if_false, hfs, Outcome.bind]

/-- Claim C12: for every stream description returned by a successful parse
with 1 or 2 channels and 8, 16 or 32 bits, `get_stream_info` returns 0 and
sets the sample rate to `sample_rate`, the frame size to
`decoded_size / channels / (bit_depth / 8)` in C integer division, the layout
to mono for 1 channel and stereo for 2, and the sample format to U8, S16 or
S32 for 8, 16 or 32 bits. -/
theorem C12_stream_info_mapping (avctx : AVCodecContext) (data : List Nat) (size : Nat)
    (env : FrameEnv) (hp : 0 ≤ env.parse_ret)
    (hc : env.frame_info.channels = 1 ∨ env.frame_info.channels = 2)
    (hb : env.frame_info.bit_depth = 8 ∨ env.frame_info.bit_depth = 16 ∨
      env.frame_info.bit_depth = 32) :
    ∃ r, get_stream_info avctx data size env = .ok r ∧ r.ret = 0 ∧
      r.avctx.sample_rate = env.frame_info.sample_rate ∧
      r.avctx.frame_size =
        (env.frame_info.decoded_size.tdiv env.frame_info.channels).tdiv
          (env.frame_info.bit_depth.tdiv 8) ∧
      (env.frame_info.channels = 1 → r.avctx.ch_layout = .AV_CHANNEL_LAYOUT_MONO) ∧
      (env.frame_info.channels = 2 → r.avctx.ch_layout = .AV_CHANNEL_LAYOUT_STEREO) ∧
      (env.frame_info.bit_depth = 8 → r.avctx.sample_fmt = .AV_SAMPLE_FMT_U8) ∧
      (env.frame_info.bit_depth = 16 → r.avctx.sample_fmt = .AV_SAMPLE_FMT_S16) ∧
      (env.frame_info.bit_depth = 32 → r.avctx.sample_fmt = .AV_SAMPLE_FMT_S32) := by
  have hc' : 0 < env.frame_info.channels := by omega
  have hb' : 8 ≤ env.frame_info.bit_depth := by omega
  refine ⟨_, get_stream_info_of_samples avctx data size env _ hp
    (samples_of_defined _ _ hc' hb'), rfl, rfl, rfl, ?_, ?_, ?_, ?_, ?_⟩
  · intro h; simp [h]
  · intro h; simp [h]
  · intro h; simp [h]
  · intro h; simp [h]
  · intro h; simp [h]

/-- Claim C12 on a 16-bit stereo description of 4608 decoded bytes. -/
theorem C12_stream_info_mapping_witness :
    0 ≤ env_ok.parse_ret ∧
    (env_ok.frame_info.channels = 1 ∨ env_ok.frame_info.channels = 2) ∧
    (env_ok.frame_info.bit_depth = 8 ∨ env_ok.frame_info.bit_depth = 16 ∨
      env_ok.frame_info.bit_depth = 32) ∧
    ∃ r, get_stream_info (opened AV_CODEC_ID_AAC) [1, 2, 3] 3 env_ok = .ok r ∧ r.ret = 0 ∧
      r.avctx.sample_rate = env_ok.frame_info.sample_rate ∧
      r.avctx.frame_size =
        (env_ok.frame_info.decoded_size.tdiv env_ok.frame_info.channels).tdiv
          (env_ok.frame_info.bit_depth.tdiv 8) ∧
      (env_ok.frame_info.channels = 1 → r.avctx.ch_layout = .AV_CHANNEL_LAYOUT_MONO) ∧
      (env_ok.frame_info.channels = 2 → r.avctx.ch_layout = .AV_CHANNEL_LAYOUT_STEREO) ∧
      (env_ok.frame_info.bit_depth = 8 → r.avctx.sample_fmt = .AV_SAMPLE_FMT_U8) ∧
      (env_ok.frame_info.bit_depth = 16 → r.avctx.sample_fmt = .AV_SAMPLE_FMT_S16) ∧
      (env_ok.frame_info.bit_depth = 32 → r.avctx.sample_fmt = .AV_SAMPLE_FMT_S32) :=
  ⟨by decide, by decide, by decide,
    C12_stream_info_mapping (opened AV_CODEC_ID_AAC) [1, 2, 3] 3 env_ok (by decide)
      (by decide) (by decide)⟩

/-- Claim C13 fails on the code.  A successful parse that reports 4 bits per
sample (or 0) on one channel makes `get_stream_info` divide by
`bit_depth / 8 = 0` at line 159: the call does not return.  With 24 bits the
division is defined and the S16 fallback is reported. -/
theorem C13_small_bit_depth_divides_by_zero :
    get_stream_info (opened AV_CODEC_ID_AAC) [1, 2, 3] 3 env_4_bits =
      .fault .division_by_zero ∧
    get_stream_info (opened AV_CODEC_ID_AAC) [1, 2, 3] 3 env_0_bits =
      .fault .division_by_zero ∧
    (∃ r, get_stream_info (opened AV_CODEC_ID_AAC) [1, 2, 3] 3 env_24_bits = .ok r ∧
      r.ret = 0 ∧ r.avctx.sample_fmt = .AV_SAMPLE_FMT_S16 ∧ r.avctx.frame_size = 768) :=
  ⟨rfl, rfl, _, rfl, rfl, rfl, rfl⟩

/-! ## Zero produced bytes: claim C14 -/

/-- What `get_stream_info` returns when it completes with a non-negative
status: the parse succeeded, one parse call was made and the channel state is
the one it was given. -/
theorem get_stream_info_success (avctx : AVCodecContext) (data : List Nat) (size : Nat)
    (env : FrameEnv) (gi : StreamInfoResult)
    (h : get_stream_info avctx data size env = .ok gi) (hret : 0 ≤ gi.ret) :
    0 ≤ env.parse_ret ∧ gi.avctx.priv_data = avctx.priv_data ∧
      gi.calls = [.es_adec_parse_packets avctx.priv_data.chan_id data size] := by
  by_cases hp : env.parse_ret < 0
  · simp only [get_stream_info, hp, if_true, Outcome.ok.injEq] at h
    subst h
    exact absurd hret (by have := AVERROR_UNKNOWN_neg; simp only []; omega)
  · cases hs : samples_of env.frame_info.decoded_size env.frame_info with
    | fault f => simp [get_stream_info, hp, hs, Outcome.bind] at h
    | ok fs =>
      rw [get_stream_info_of_samples avctx data size env fs (by omega) hs] at h
      injection h with h
      subst h
      exact ⟨by omega, rfl, rfl⟩

/-- When the staging completes, the shift of lines 220-222 is defined for the
staged length. -/
theorem shift_defined_of_staged (codec_id : AVCodecID) (s s1 s' : ESADECContext)
    (avpkt : AVPacket) (input : List Nat) (pkt_size : Nat)
    (h : stage_input codec_id s avpkt = .ok (s1, input, pkt_size)) :
    ∃ s2, shift_stream codec_id s' pkt_size avpkt = .ok s2 := by
  by_cases hcodec : codec_id = AV_CODEC_ID_MP3
  · by_cases hcap : s.offset + avpkt.size ≤ STREAM_SIZE
    · simp only [stage_input, hcodec, if_true, memcpy_at, hcap, Outcome.bind,
        Outcome.ok.injEq, Prod.mk.injEq] at h
      obtain ⟨_, _, hn⟩ := h
      subst hn
      simp only [shift_stream, hcodec, if_true, memmove_front, hcap, Outcome.bind]
      exact ⟨_, rfl⟩
    · simp [stage_input, hcodec, memcpy_at, hcap, Outcome.bind] at h
  · simp only [shift_stream, hcodec, if_false]
    exact ⟨_, rfl⟩

/-- The staging of an MP3 packet completes only when the packet fits behind
the accumulated bytes. -/
theorem fit_of_staged (codec_id : AVCodecID) (s s1 : ESADECContext)
    (avpkt : AVPacket) (input : List Nat) (pkt_size : Nat)
    (h : stage_input codec_id s avpkt = .ok (s1, input, pkt_size)) :
    codec_id = AV_CODEC_ID_MP3 → s.offset + avpkt.size ≤ STREAM_SIZE := by
  intro hcodec
  by_cases hcap : s.offset + avpkt.size ≤ STREAM_SIZE
  · exact hcap
  · simp [stage_input, hcodec, memcpy_at, hcap, Outcome.bind] at h

/-- Claim C14: for every codec and every call of `ff_es_adec_frame` that gets
as far as `es_adec_decode_stream` (non-empty effective input, successful
parse), when the decode returns status 0 with zero produced bytes the call
returns `avpkt->size`, a non-negative value, leaves `got_frame` and the frame
as they were, and makes no `ff_get_buffer` request: its calls are the parse
and the decode. -/
theorem C14_zero_bytes_is_not_an_error (avctx : AVCodecContext) (frame : AVFrame)
    (got_frame : Int) (avpkt : AVPacket) (env : FrameEnv)
    (hreach : reaches_decode avctx avpkt env)
    (hd : env.decode_ret = 0) (hz : env.decode_size = 0) :
    ∃ r, ff_es_adec_frame avctx frame got_frame avpkt env = .ok r ∧
      r.ret = (avpkt.size : Int) ∧ 0 ≤ r.ret ∧
      r.got_frame = got_frame ∧ r.frame = frame ∧
      (∀ n, Call.ff_get_buffer n ∉ r.calls) ∧
      r.calls =
        [.es_adec_parse_packets avctx.priv_data.chan_id (effective_input avctx avpkt)
           (effective_size avctx avpkt),
         .es_adec_decode_stream avctx.priv_data.chan_id (effective_input avctx avpkt)
           (effective_size avctx avpkt) avctx.priv_data.buffer_size] := by
  obtain ⟨s1, input, n, gi, hst, hn, hgi, hret⟩ := hreach
  obtain ⟨s1', hst', hchan, hbuf⟩ :=
    stage_input_eq avctx avpkt (fit_of_staged _ _ _ _ _ _ hst)
  rw [hst'] at hst
  simp only [Outcome.ok.injEq, Prod.mk.injEq] at hst
  obtain ⟨h1, h2, h3⟩ := hst
  subst h1 h2 h3
  obtain ⟨_, hpd, hcalls⟩ := get_stream_info_success _ _ _ _ _ hgi hret
  obtain ⟨s2, hs2⟩ := shift_defined_of_staged _ _ _ gi.avctx.priv_data _ _ _ hst'
  have hr : ¬ gi.ret < 0 := by omega
  simp only [ff_es_adec_frame, hst', Outcome.bind, hn, if_false, hgi, hr, hd, ne_eq,
    not_true_eq_false, hs2, hz, if_true]
  refine ⟨_, rfl, rfl, ?_, rfl, rfl, ?_, ?_⟩
  · exact Int.ofNat_nonneg _
  · intro k
    simp [hcalls]
  · simp [hcalls, hchan, hbuf]

/-- Claim C14 on a 3-byte AAC packet for which the decoder produces nothing. -/
theorem C14_zero_bytes_is_not_an_error_witness :
    reaches_decode (opened AV_CODEC_ID_AAC) ⟨[1, 2, 3]⟩ env_zero_bytes ∧
    env_zero_bytes.decode_ret = 0 ∧ env_zero_bytes.decode_size = 0 ∧
    ∃ r, ff_es_adec_frame (opened AV_CODEC_ID_AAC) blank_frame 0 ⟨[1, 2, 3]⟩
        env_zero_bytes = .ok r ∧
      r.ret = ((⟨[1, 2, 3]⟩ : AVPacket).size : Int) ∧ 0 ≤ r.ret ∧
      r.got_frame = 0 ∧ r.frame = blank_frame ∧
      (∀ n, Call.ff_get_buffer n ∉ r.calls) ∧
      r.calls =
        [.es_adec_parse_packets (opened AV_CODEC_ID_AAC).priv_data.chan_id
           (effective_input (opened AV_CODEC_ID_AAC) ⟨[1, 2, 3]⟩)
           (effective_size (opened AV_CODEC_ID_AAC) ⟨[1, 2, 3]⟩),
         .es_adec_decode_stream (opened AV_CODEC_ID_AAC).priv_data.chan_id
           (effective_input (opened AV_CODEC_ID_AAC) ⟨[1, 2, 3]⟩)
           (effective_size (opened AV_CODEC_ID_AAC) ⟨[1, 2, 3]⟩)
           (opened AV_CODEC_ID_AAC).priv_data.buffer_size] :=
  ⟨⟨_, _, _, _, rfl, by decide, rfl, by decide⟩, rfl, rfl,
    C14_zero_bytes_is_not_an_error (opened AV_CODEC_ID_AAC) blank_frame 0 ⟨[1, 2, 3]⟩
      env_zero_bytes ⟨_, _, _, _, rfl, by decide, rfl, by decide⟩ rfl rfl⟩

/-! ## Attribute variants and open/close: claims C15 to C17 -/

/-- Claim C15: when the allocation succeeds, `get_audio_decoder_attr` builds
for `AV_CODEC_ID_AMR_NB` an AMR attribute with `is_wb = 0` and for
`AV_CODEC_ID_AMR_WB` one with `is_wb = 1`, whatever the context (and so
whatever the configured `bit_rate`). -/
theorem C15_amr_wideband_flag (avctx : AVCodecContext) :
    get_audio_decoder_attr avctx AV_CODEC_ID_AMR_NB true = some (.amr 0) ∧
    get_audio_decoder_attr avctx AV_CODEC_ID_AMR_WB true = some (.amr 1) := by
  constructor <;> simp [get_audio_decoder_attr]

/-- Claim C16: for every registered codec identifier,
`convert_codec_id_to_type` returns the engine type of its family (never
`UNKNOW`), and `get_audio_decoder_attr`, when the allocation succeeds,
builds the attribute variant of that same engine type (G.711 with the A-law
selector exactly for `PCM_ALAW`, AAC with `output_format = 1`, the input
profile and ADTS transport), returning no attribute exactly when the mapped
type is MP3. -/
theorem C16_type_and_attribute_agree (avctx : AVCodecContext) (id : AVCodecID)
    (hid : id ∈ registered_ids) :
    convert_codec_id_to_type id ≠ .UNKNOW ∧
    (id = AV_CODEC_ID_AAC → convert_codec_id_to_type id = .AAC) ∧
    (id = AV_CODEC_ID_MP3 → convert_codec_id_to_type id = .MP3) ∧
    (id = AV_CODEC_ID_PCM_ALAW ∨ id = AV_CODEC_ID_PCM_MULAW →
      convert_codec_id_to_type id = .G711) ∧
    (id = AV_CODEC_ID_ADPCM_G722 → convert_codec_id_to_type id = .G722) ∧
    (id = AV_CODEC_ID_ADPCM_G726 → convert_codec_id_to_type id = .G726) ∧
    (id = AV_CODEC_ID_AMR_NB ∨ id = AV_CODEC_ID_AMR_WB →
      convert_codec_id_to_type id = .AMR) ∧
    (∀ a, get_audio_decoder_attr avctx id true = some a →
      a.type = convert_codec_id_to_type id) ∧
    (get_audio_decoder_attr avctx id true = none ↔ convert_codec_id_to_type id = .MP3) ∧
    (id = AV_CODEC_ID_PCM_ALAW →
      get_audio_decoder_attr avctx id true = some (.g711 .ALAW)) ∧
    (id = AV_CODEC_ID_PCM_MULAW →
      get_audio_decoder_attr avctx id true = some (.g711 .ULAW)) ∧
    (id = AV_CODEC_ID_AAC →
      get_audio_decoder_attr avctx id true =
        some (.aac 1 avctx.profile .AAC_TRANS_TYPE_ADTS)) := by
  simp only [registered_ids, List.mem_cons, List.mem_singleton, List.not_mem_nil,
    or_false] at hid
  rcases hid with h | h | h | h | h | h | h | h <;> subst h <;>
    simp [convert_codec_id_to_type, get_audio_decoder_attr, Attr.type]

/-- Claim C16 on the G.711 mu-law identifier. -/
theorem C16_type_and_attribute_agree_witness :
    AV_CODEC_ID_PCM_MULAW ∈ registered_ids ∧
    convert_codec_id_to_type AV_CODEC_ID_PCM_MULAW ≠ .UNKNOW ∧
    (AV_CODEC_ID_PCM_MULAW = AV_CODEC_ID_AAC → convert_codec_id_to_type AV_CODEC_ID_PCM_MULAW = .AAC) ∧
    (AV_CODEC_ID_PCM_MULAW = AV_CODEC_ID_MP3 → convert_codec_id_to_type AV_CODEC_ID_PCM_MULAW = .MP3) ∧
    (AV_CODEC_ID_PCM_MULAW = AV_CODEC_ID_PCM_ALAW ∨ AV_CODEC_ID_PCM_MULAW = AV_CODEC_ID_PCM_MULAW →
      convert_codec_id_to_type AV_CODEC_ID_PCM_MULAW = .G711) ∧
    (AV_CODEC_ID_PCM_MULAW = AV_CODEC_ID_ADPCM_G722 → convert_codec_id_to_type AV_CODEC_ID_PCM_MULAW = .G722) ∧
    (AV_CODEC_ID_PCM_MULAW = AV_CODEC_ID_ADPCM_G726 → convert_codec_id_to_type AV_CODEC_ID_PCM_MULAW = .G726) ∧
    (AV_CODEC_ID_PCM_MULAW = AV_CODEC_ID_AMR_NB ∨ AV_CODEC_ID_PCM_MULAW = AV_CODEC_ID_AMR_WB →
      convert_codec_id_to_type AV_CODEC_ID_PCM_MULAW = .AMR) ∧
    (∀ a, get_audio_decoder_attr (unopened AV_CODEC_ID_PCM_MULAW) AV_CODEC_ID_PCM_MULAW true = some a →
      a.type = convert_codec_id_to_type AV_CODEC_ID_PCM_MULAW) ∧
    (get_audio_decoder_attr (unopened AV_CODEC_ID_PCM_MULAW) AV_CODEC_ID_PCM_MULAW true = none ↔ convert_codec_id_to_type AV_CODEC_ID_PCM_MULAW = .MP3) ∧
    (AV_CODEC_ID_PCM_MULAW = AV_CODEC_ID_PCM_ALAW →
      get_audio_decoder_attr (unopened AV_CODEC_ID_PCM_MULAW) AV_CODEC_ID_PCM_MULAW true = some (.g711 .ALAW)) ∧
    (AV_CODEC_ID_PCM_MULAW = AV_CODEC_ID_PCM_MULAW →
      get_audio_decoder_attr (unopened AV_CODEC_ID_PCM_MULAW) AV_CODEC_ID_PCM_MULAW true = some (.g711 .ULAW)) ∧
    (AV_CODEC_ID_PCM_MULAW = AV_CODEC_ID_AAC →
      get_audio_decoder_attr (unopened AV_CODEC_ID_PCM_MULAW) AV_CODEC_ID_PCM_MULAW true =
        some (.aac 1 (unopened AV_CODEC_ID_PCM_MULAW).profile .AAC_TRANS_TYPE_ADTS)) :=
  ⟨by decide,
    C16_type_and_attribute_agree (unopened AV_CODEC_ID_PCM_MULAW) AV_CODEC_ID_PCM_MULAW
      (by decide)⟩

/-- Claim C17: for each of the eight registered codec identifiers, when
`es_adec_create` returns 0 (and the counter has not reached `INT32_MAX`)
`ff_es_adec_init` returns 0 with no packet submitted: its only calls are the
one-time engine start, if due, and `es_adec_create` with the counter value.
`ff_es_adec_close` on the opened context then returns 0 and calls
`es_adec_destroy` with exactly that channel id. -/
theorem C17_open_then_close (chan : Int) (avctx : AVCodecContext) (env : InitEnv)
    (hid : avctx.codec_id ∈ registered_ids) (hc : env.create_ret = 0)
    (hchan : chan < INT32_MAX) :
    ∃ r, ff_es_adec_init chan avctx env = .ok r ∧ r.ret = 0 ∧
      r.calls = (if chan = 1 then [Call.es_adec_init] else []) ++
        [.es_adec_create chan (convert_codec_id_to_type avctx.codec_id)
          (get_audio_decoder_attr avctx avctx.codec_id env.attr_alloc_ok)] ∧
      (ff_es_adec_close r.avctx).ret = 0 ∧
      (ff_es_adec_close r.avctx).calls =
        [.es_adec_destroy chan, .av_free env.buffer_ptr] ∧
      (∀ c t a, Call.es_adec_create c t a ∈ r.calls →
        Call.es_adec_destroy c ∈ (ff_es_adec_close r.avctx).calls) := by
  have hne : chan ≠ INT32_MAX := by omega
  refine ⟨_, init_created chan avctx env (registered_ids_mapped _ hid) hc hne, rfl, rfl,
    rfl, rfl, ?_⟩
  intro c t a hmem
  by_cases h1 : chan = 1
  · simp [h1] at hmem
    simp [ff_es_adec_close, hmem.1, h1]
  · simp [h1] at hmem
    simp [ff_es_adec_close, hmem.1]

/-- Claim C17 on the first open of a process, for an AMR wideband stream. -/
theorem C17_open_then_close_witness :
    (unopened AV_CODEC_ID_AMR_WB).codec_id ∈ registered_ids ∧ init_ok.create_ret = 0 ∧
    chan_start < INT32_MAX ∧
    ∃ r, ff_es_adec_init chan_start (unopened AV_CODEC_ID_AMR_WB) init_ok = .ok r ∧
      r.ret = 0 ∧
      r.calls = (if chan_start = 1 then [Call.es_adec_init] else []) ++
        [.es_adec_create chan_start
          (convert_codec_id_to_type (unopened AV_CODEC_ID_AMR_WB).codec_id)
          (get_audio_decoder_attr (unopened AV_CODEC_ID_AMR_WB)
            (unopened AV_CODEC_ID_AMR_WB).codec_id init_ok.attr_alloc_ok)] ∧
      (ff_es_adec_close r.avctx).ret = 0 ∧
      (ff_es_adec_close r.avctx).calls =
        [.es_adec_destroy chan_start, .av_free init_ok.buffer_ptr] ∧
      (∀ c t a, Call.es_adec_create c t a ∈ r.calls →
        Call.es_adec_destroy c ∈ (ff_es_adec_close r.avctx).calls) :=
  ⟨by decide, rfl, by decide,
    C17_open_then_close chan_start (unopened AV_CODEC_ID_AMR_WB) init_ok (by decide) rfl
      (by decide)⟩

/-! ## Bounds of the accumulation array: claim C18 -/

/-- A C division never touches the accumulation array. -/
theorem c_div_fault (a b : Int) (f : Fault) (h : c_div a b = .fault f) :
    f ≠ .out_of_bounds := by
  unfold c_div at h
  split_ifs at h <;> injection h with h <;> subst h <;> decide

/-- The sample-count expression never touches the accumulation array. -/
theorem samples_of_fault (bytes : Int) (info : es_frame_info) (f : Fault)
    (h : samples_of bytes info = .fault f) : f ≠ .out_of_bounds := by
  unfold samples_of at h
  cases h1 : c_div bytes info.channels with
  | fault f1 =>
    simp only [h1, Outcome.bind, Outcome.fault.injEq] at h
    subst h
    exact c_div_fault _ _ _ h1
  | ok q =>
    cases h2 : c_div info.bit_depth 8 with
    | fault f2 =>
      simp only [h1, h2, Outcome.bind, Outcome.fault.injEq] at h
      subst h
      exact c_div_fault _ _ _ h2
    | ok w =>
      simp only [h1, h2, Outcome.bind] at h
      exact c_div_fault _ _ _ h

/-- One call on an MP3 channel, whatever the engine and the host answer: if
the accumulated bytes and the packet are at most `MAX_STREAM_LEN` long, the
call never leaves the array, and when it returns the new offset is the
packet size. -/
theorem mp3_call_in_bounds (avctx : AVCodecContext) (frame : AVFrame) (got_frame : Int)
    (avpkt : AVPacket) (env : FrameEnv)
    (hcodec : avctx.codec_id = AV_CODEC_ID_MP3)
    (hoff : avctx.priv_data.offset ≤ MAX_STREAM_LEN)
    (hsize : avpkt.size ≤ MAX_STREAM_LEN) :
    ff_es_adec_frame avctx frame got_frame avpkt env ≠ .fault .out_of_bounds ∧
    ∀ r, ff_es_adec_frame avctx frame got_frame avpkt env = .ok r →
      r.avctx.codec_id = AV_CODEC_ID_MP3 ∧ r.avctx.priv_data.offset = avpkt.size := by
  have hcap : avctx.priv_data.offset + avpkt.size ≤ STREAM_SIZE := by
    simp only [MAX_STREAM_LEN] at hoff hsize
    simp only [STREAM_SIZE, MAX_STREAM_LEN]
    omega
  simp only [ff_es_adec_frame, stage_input, hcodec, memcpy_at, hcap, if_true, Outcome.bind,
    get_stream_info, shift_stream, memmove_front]
  by_cases h0 : avctx.priv_data.offset = 0
  · simp only [h0, if_true]
    refine ⟨by simp, ?_⟩
    intro r hr
    injection hr with hr
    subst hr
    exact ⟨rfl, rfl⟩
  · simp only [h0, if_false]
    by_cases hp : env.parse_ret < 0
    · simp only [hp, if_true, AVERROR_UNKNOWN_neg]
      refine ⟨by simp, ?_⟩
      intro r hr
      injection hr with hr
      subst hr
      exact ⟨rfl, rfl⟩
    · simp only [hp, if_false]
      cases hs1 : samples_of env.frame_info.decoded_size env.frame_info with
      | fault f1 =>
        have := samples_of_fault _ _ _ hs1
        simp [this]
      | ok fs =>
        simp only [lt_irrefl, if_false]
        by_cases hd : env.decode_ret = 0
        · simp only [hd, ne_eq, not_true_eq_false, if_false]
          by_cases hz : env.decode_size = 0
          · simp only [hz, if_true]
            refine ⟨by simp, ?_⟩
            intro r hr
            injection hr with hr
            subst hr
            exact ⟨rfl, rfl⟩
          · simp only [hz, if_false]
            cases hs2 : samples_of env.decode_size env.frame_info with
            | fault f2 =>
              have := samples_of_fault _ _ _ hs2
              simp [this]
            | ok n =>
              by_cases hg : env.get_buffer_ret < 0
              · simp only [hg, if_true]
                refine ⟨by simp, ?_⟩
                intro r hr
                injection hr with hr
                subst hr
                exact ⟨rfl, rfl⟩
              · simp only [hg, if_false]
                refine ⟨by simp, ?_⟩
                intro r hr
                injection hr with hr
                subst hr
                exact ⟨rfl, rfl⟩
        · simp only [hd, ne_eq, not_false_eq_true, if_true]
          refine ⟨by simp, ?_⟩
          intro r hr
          injection hr with hr
          subst hr
          exact ⟨rfl, rfl⟩

/-- A sequence of calls on an MP3 channel, all packets at most
`MAX_STREAM_LEN` long: the run never leaves the array and every call starts
on an MP3 channel whose offset is at most `MAX_STREAM_LEN`. -/
theorem mp3_run_in_bounds (steps : List (AVPacket × FrameEnv)) :
    ∀ avctx : AVCodecContext, avctx.codec_id = AV_CODEC_ID_MP3 →
      avctx.priv_data.offset ≤ MAX_STREAM_LEN →
      (∀ st ∈ steps, st.1.size ≤ MAX_STREAM_LEN) →
      run_frames avctx steps ≠ .fault .out_of_bounds ∧
      ∀ (k : Nat) (c : AVCodecContext), (entry_contexts avctx steps)[k]? = some c →
        c.codec_id = AV_CODEC_ID_MP3 ∧ c.priv_data.offset ≤ MAX_STREAM_LEN := by
  induction steps with
  | nil =>
    intro avctx _ _ _
    exact ⟨by simp [run_frames], by simp [entry_contexts]⟩
  | cons st rest ih =>
    intro avctx hcodec hoff hsteps
    obtain ⟨avpkt, env⟩ := st
    have hsz : avpkt.size ≤ MAX_STREAM_LEN := (hsteps (avpkt, env) (List.mem_cons_self _ _))
    obtain ⟨hno, hok⟩ := mp3_call_in_bounds avctx blank_frame 0 avpkt env hcodec hoff hsz
    cases hr : ff_es_adec_frame avctx blank_frame 0 avpkt env with
    | fault f =>
      refine ⟨?_, ?_⟩
      · rw [hr] at hno
        have hf : f ≠ .out_of_bounds := fun h => hno (by rw [h])
        simp only [run_frames, hr, Outcome.bind]
        simpa using hf
      · intro k c hk
        cases k with
        | zero =>
          simp only [entry_contexts, List.getElem?_cons_zero, Option.some.injEq] at hk
          subst hk
          exact ⟨hcodec, hoff⟩
        | succ j => simp [entry_contexts, hr] at hk
    | ok r =>
      obtain ⟨hc1, ho1⟩ := hok r hr
      have ho1' : r.avctx.priv_data.offset ≤ MAX_STREAM_LEN := by rw [ho1]; exact hsz
      obtain ⟨ihno, ihctx⟩ :=
        ih r.avctx hc1 ho1' (fun x hx => hsteps x (List.mem_cons_of_mem _ hx))
      refine ⟨?_, ?_⟩
      · simp only [run_frames, hr, Outcome.bind]
        cases hrest : run_frames r.avctx rest with
        | fault f' =>
          rw [hrest] at ihno
          simpa using ihno
        | ok rs => simp
      · intro k c hk
        cases k with
        | zero =>
          simp only [entry_contexts, List.getElem?_cons_zero, Option.some.injEq] at hk
          subst hk
          exact ⟨hcodec, hoff⟩
        | succ j =>
          simp only [entry_contexts, hr, List.getElem?_cons_succ] at hk
          exact ihctx j c hk

/-- Claim C18: the MP3 accumulation array never overflows.  For every
sequence of calls on an MP3 channel opened with `offset = 0`, every packet
at most `MAX_STREAM_LEN` (2048) bytes long, and whatever the engine and the
host answer: no call leaves the array; at the start of every call
`offset ≤ 2048`; and the append range `[offset, offset + size)` and the
shift source range `[pkt_size, pkt_size + size)`, where `pkt_size` is that
offset, end within the `STREAM_SIZE = 4096` bytes of the array, so that the
staging copy and the shift are both defined. -/
theorem C18_accumulation_never_overflows (avctx : AVCodecContext)
    (steps : List (AVPacket × FrameEnv))
    (hcodec : avctx.codec_id = AV_CODEC_ID_MP3)
    (hfresh : avctx.priv_data.offset = 0)
    (hsteps : ∀ st ∈ steps, st.1.size ≤ MAX_STREAM_LEN) :
    STREAM_SIZE = 4096 ∧ MAX_STREAM_LEN = 2048 ∧
    run_frames avctx steps ≠ .fault .out_of_bounds ∧
    ∀ (k : Nat) (c : AVCodecContext) (st : AVPacket × FrameEnv),
      (entry_contexts avctx steps)[k]? = some c → steps[k]? = some st →
      c.priv_data.offset ≤ MAX_STREAM_LEN ∧
      c.priv_data.offset + st.1.size ≤ STREAM_SIZE ∧
      (∃ s1 input, stage_input c.codec_id c.priv_data st.1 =
        .ok (s1, input, c.priv_data.offset)) ∧
      (∀ s, ∃ s2, shift_stream c.codec_id s c.priv_data.offset st.1 = .ok s2) := by
  have hoff : avctx.priv_data.offset ≤ MAX_STREAM_LEN := by rw [hfresh]; exact Nat.zero_le _
  obtain ⟨hno, hctx⟩ := mp3_run_in_bounds steps avctx hcodec hoff hsteps
  refine ⟨rfl, rfl, hno, ?_⟩
  intro k c st hk hst
  obtain ⟨hc, ho⟩ := hctx k c hk
  have hsz : st.1.size ≤ MAX_STREAM_LEN := hsteps st (List.getElem?_mem hst)
  have hcap : c.priv_data.offset + st.1.size ≤ STREAM_SIZE := by
    simp only [MAX_STREAM_LEN] at ho hsz
    simp only [STREAM_SIZE, MAX_STREAM_LEN]
    omega
  refine ⟨ho, hcap, ?_, ?_⟩
  · simp only [stage_input, hc, if_true, memcpy_at, hcap, Outcome.bind]
    exact ⟨_, _, rfl⟩
  · intro s
    simp only [shift_stream, hc, if_true, memmove_front, hcap, Outcome.bind]
    exact ⟨_, rfl⟩

/-- Claim C18 on a fresh MP3 channel and three packets, the parse failing
during the second call. -/
theorem C18_accumulation_never_overflows_witness :
    mp3_fresh.codec_id = AV_CODEC_ID_MP3 ∧ mp3_fresh.priv_data.offset = 0 ∧
    (∀ st ∈ steps_parse_fails, st.1.size ≤ MAX_STREAM_LEN) ∧
    STREAM_SIZE = 4096 ∧ MAX_STREAM_LEN = 2048 ∧
    run_frames mp3_fresh steps_parse_fails ≠ .fault .out_of_bounds ∧
    ∀ (k : Nat) (c : AVCodecContext) (st : AVPacket × FrameEnv),
      (entry_contexts mp3_fresh steps_parse_fails)[k]? = some c →
      steps_parse_fails[k]? = some st →
      c.priv_data.offset ≤ MAX_STREAM_LEN ∧
      c.priv_data.offset + st.1.size ≤ STREAM_SIZE ∧
      (∃ s1 input, stage_input c.codec_id c.priv_data st.1 =
        .ok (s1, input, c.priv_data.offset)) ∧
      (∀ s, ∃ s2, shift_stream c.codec_id s c.priv_data.offset st.1 = .ok s2) :=
  ⟨rfl, rfl, by decide,
    C18_accumulation_never_overflows mp3_fresh steps_parse_fails rfl rfl (by decide)⟩

/-! ## Pass-through for the other codecs: claim C19 -/

/-- One call on a channel whose codec is not MP3, whatever the engine and
the host answer: when the call returns, the private state is the one at
entry and every engine input is the packet with its size. -/
theorem other_codec_call (avctx : AVCodecContext) (frame : AVFrame) (got_frame : Int)
    (avpkt : AVPacket) (env : FrameEnv)
    (hcodec : avctx.codec_id ≠ AV_CODEC_ID_MP3) :
    ∀ r, ff_es_adec_frame avctx frame got_frame avpkt env = .ok r →
      r.avctx.priv_data = avctx.priv_data ∧
      ∀ c ∈ r.calls, ∀ d n, c.input = some (d, n) → d = avpkt.data ∧ n = avpkt.size := by
  intro r hr
  simp only [ff_es_adec_frame, stage_input, hcodec, if_false, Outcome.bind,
    get_stream_info, shift_stream] at hr
  by_cases h0 : avpkt.size = 0
  · simp only [h0, if_true, Outcome.ok.injEq] at hr
    subst hr
    exact ⟨rfl, by simp⟩
  · simp only [h0, if_false] at hr
    by_cases hp : env.parse_ret < 0
    · simp only [hp, if_true, AVERROR_UNKNOWN_neg, Outcome.ok.injEq] at hr
      subst hr
      refine ⟨rfl, ?_⟩
      intro c hc d n hin
      simp only [List.mem_singleton] at hc
      subst hc
      simp only [Call.input, Option.some.injEq, Prod.mk.injEq] at hin
      exact ⟨hin.1.symm, hin.2.symm⟩
    · simp only [hp, if_false] at hr
      cases hs1 : samples_of env.frame_info.decoded_size env.frame_info with
      | fault f1 => simp [hs1] at hr
      | ok fs =>
        simp only [hs1, lt_irrefl, if_false] at hr
        have hcalls : ∀ c ∈
            [Call.es_adec_parse_packets avctx.priv_data.chan_id avpkt.data avpkt.size] ++
              [Call.es_adec_decode_stream avctx.priv_data.chan_id avpkt.data avpkt.size
                avctx.priv_data.buffer_size],
            ∀ d n, c.input = some (d, n) → d = avpkt.data ∧ n = avpkt.size := by
          intro c hc d n hin
          simp only [List.cons_append, List.nil_append, List.mem_cons, List.mem_singleton,
            List.not_mem_nil, or_false] at hc
          rcases hc with hc | hc <;> subst hc <;>
            simp only [Call.input, Option.some.injEq, Prod.mk.injEq] at hin <;>
            exact ⟨hin.1.symm, hin.2.symm⟩
        by_cases hd : env.decode_ret = 0
        · simp only [hd, ne_eq, not_true_eq_false, if_false] at hr
          by_cases hz : env.decode_size = 0
          · simp only [hz, if_true, Outcome.ok.injEq] at hr
            subst hr
            exact ⟨rfl, hcalls⟩
          · simp only [hz, if_false] at hr
            cases hs2 : samples_of env.decode_size env.frame_info with
            | fault f2 => simp [hs2] at hr
            | ok k =>
              simp only [hs2] at hr
              have hcalls3 : ∀ c ∈
                  ([Call.es_adec_parse_packets avctx.priv_data.chan_id avpkt.data
                      avpkt.size] ++
                    [Call.es_adec_decode_stream avctx.priv_data.chan_id avpkt.data
                      avpkt.size avctx.priv_data.buffer_size]) ++ [Call.ff_get_buffer k],
                  ∀ d n, c.input = some (d, n) → d = avpkt.data ∧ n = avpkt.size := by
                intro c hc d n hin
                rcases List.mem_append.mp hc with hc | hc
                · exact hcalls c hc d n hin
                · simp only [List.mem_singleton] at hc
                  subst hc
                  simp [Call.input] at hin
              by_cases hg : env.get_buffer_ret < 0
              · simp only [hg, if_true, Outcome.ok.injEq] at hr
                subst hr
                exact ⟨rfl, hcalls3⟩
              · simp only [hg, if_false, Outcome.ok.injEq] at hr
                subst hr
                exact ⟨rfl, hcalls3⟩
        · simp only [hd, ne_eq, not_false_eq_true, if_true, Outcome.ok.injEq] at hr
          subst hr
          exact ⟨rfl, hcalls⟩

/-- Claim C19: for every codec identifier other than `AV_CODEC_ID_MP3`
(`AV_CODEC_ID_MP2` included), the effective input of `ff_es_adec_frame` is
the submitted packet with its size: on every path that returns, the
accumulation state (`stream` and `offset`) is the one at entry and every
input handed to the engine is exactly the packet's bytes and size; and when
a successful parse keeps the divisions defined the call does return, a
non-empty packet being handed to `es_adec_parse_packets` and, after a
successful parse, to `es_adec_decode_stream`. -/
theorem C19_other_codecs_pass_through (avctx : AVCodecContext) (frame : AVFrame)
    (got_frame : Int) (avpkt : AVPacket) (env : FrameEnv)
    (hcodec : avctx.codec_id ≠ AV_CODEC_ID_MP3) :
    (∀ r, ff_es_adec_frame avctx frame got_frame avpkt env = .ok r →
      r.avctx.priv_data.stream = avctx.priv_data.stream ∧
      r.avctx.priv_data.offset = avctx.priv_data.offset ∧
      ∀ c ∈ r.calls, ∀ d n, c.input = some (d, n) → d = avpkt.data ∧ n = avpkt.size) ∧
    ((0 ≤ env.parse_ret → 0 < env.frame_info.channels ∧ 8 ≤ env.frame_info.bit_depth) →
      ∃ r, ff_es_adec_frame avctx frame got_frame avpkt env = .ok r ∧
        (avpkt.size ≠ 0 →
          r.calls.head? =
            some (.es_adec_parse_packets avctx.priv_data.chan_id avpkt.data avpkt.size) ∧
          (0 ≤ env.parse_ret →
            Call.es_adec_decode_stream avctx.priv_data.chan_id avpkt.data avpkt.size
              avctx.priv_data.buffer_size ∈ r.calls))) := by
  refine ⟨?_, ?_⟩
  · intro r hr
    obtain ⟨hs, hin⟩ := other_codec_call avctx frame got_frame avpkt env hcodec r hr
    exact ⟨by rw [hs], by rw [hs], hin⟩
  · intro hinfo
    have hfit : avctx.codec_id = AV_CODEC_ID_MP3 →
        avctx.priv_data.offset + avpkt.size ≤ STREAM_SIZE := fun h => absurd h hcodec
    obtain ⟨r, hr, _, hcalls, _⟩ := frame_paths avctx frame got_frame avpkt env hfit hinfo
    simp only [effective_size, effective_input, hcodec, if_false] at hcalls
    refine ⟨r, hr, ?_⟩
    intro h0
    simp only [h0, if_false] at hcalls
    refine ⟨by rw [hcalls]; rfl, ?_⟩
    intro hp
    have hp' : ¬ env.parse_ret < 0 := by omega
    rw [hcalls]
    simp [hp']

/-- Claim C19 on an MP2 channel, which the mapper sends to the engine type
MP3, and the packet `[1, 2, 3]`. -/
theorem C19_other_codecs_pass_through_witness :
    (opened AV_CODEC_ID_MP2).codec_id ≠ AV_CODEC_ID_MP3 ∧
    convert_codec_id_to_type (opened AV_CODEC_ID_MP2).codec_id = .MP3 ∧
    (∀ r, ff_es_adec_frame (opened AV_CODEC_ID_MP2) blank_frame 0 ⟨[1, 2, 3]⟩ env_ok = .ok r →
      r.avctx.priv_data.stream = (opened AV_CODEC_ID_MP2).priv_data.stream ∧
      r.avctx.priv_data.offset = (opened AV_CODEC_ID_MP2).priv_data.offset ∧
      ∀ c ∈ r.calls, ∀ d n, c.input = some (d, n) →
        d = (⟨[1, 2, 3]⟩ : AVPacket).data ∧ n = (⟨[1, 2, 3]⟩ : AVPacket).size) ∧
    ((0 ≤ env_ok.parse_ret →
        0 < env_ok.frame_info.channels ∧ 8 ≤ env_ok.frame_info.bit_depth) →
      ∃ r, ff_es_adec_frame (opened AV_CODEC_ID_MP2) blank_frame 0 ⟨[1, 2, 3]⟩ env_ok = .ok r ∧
        ((⟨[1, 2, 3]⟩ : AVPacket).size ≠ 0 →
          r.calls.head? =
            some (.es_adec_parse_packets (opened AV_CODEC_ID_MP2).priv_data.chan_id
              (⟨[1, 2, 3]⟩ : AVPacket).data (⟨[1, 2, 3]⟩ : AVPacket).size) ∧
          (0 ≤ env_ok.parse_ret →
            Call.es_adec_decode_stream (opened AV_CODEC_ID_MP2).priv_data.chan_id
              (⟨[1, 2, 3]⟩ : AVPacket).data (⟨[1, 2, 3]⟩ : AVPacket).size
              (opened AV_CODEC_ID_MP2).priv_data.buffer_size ∈ r.calls))) :=
  ⟨by decide, rfl,
    C19_other_codecs_pass_through (opened AV_CODEC_ID_MP2) blank_frame 0 ⟨[1, 2, 3]⟩ env_ok
      (by decide)⟩

/-! ## The sample count: claim C20 -/

/-- The sample count times the sample size never exceeds the byte count, and
equals it exactly when the byte count is a whole number of samples. -/
theorem samples_payload (bytes channels bit_depth : Int) (hpos : 0 < bytes)
    (hc : channels = 1 ∨ channels = 2)
    (hb : bit_depth = 8 ∨ bit_depth = 16 ∨ bit_depth = 32) :
    (bytes.tdiv channels).tdiv (bit_depth.tdiv 8) * channels * (bit_depth.tdiv 8) ≤ bytes ∧
    ((bytes.tdiv channels).tdiv (bit_depth.tdiv 8) * channels * (bit_depth.tdiv 8) = bytes ↔
      (channels * (bit_depth.tdiv 8)) ∣ bytes) := by
  have h8 : (8 : Int).tdiv 8 = 1 := by decide
  have h16 : (16 : Int).tdiv 8 = 2 := by decide
  have h32 : (32 : Int).tdiv 8 = 4 := by decide
  have e1 : bytes.tdiv 1 = bytes / 1 := Int.tdiv_eq_ediv (by omega) (by omega)
  have e2 : bytes.tdiv 2 = bytes / 2 := Int.tdiv_eq_ediv (by omega) (by omega)
  have q1 : ∀ x : Int, 0 ≤ x → x.tdiv 1 = x / 1 := fun x hx =>
    Int.tdiv_eq_ediv hx (by omega)
  have q2 : ∀ x : Int, 0 ≤ x → x.tdiv 2 = x / 2 := fun x hx =>
    Int.tdiv_eq_ediv hx (by omega)
  have q4 : ∀ x : Int, 0 ≤ x → x.tdiv 4 = x / 4 := fun x hx =>
    Int.tdiv_eq_ediv hx (by omega)
  rcases hc with hc | hc <;> rcases hb with hb | hb | hb <;> subst hc hb
  · rw [h8, e1, q1 _ (by omega)]; constructor <;> omega
  · rw [h16, e1, q2 _ (by omega)]; constructor <;> omega
  · rw [h32, e1, q4 _ (by omega)]; constructor <;> omega
  · rw [h8, e2, q1 _ (by omega)]; constructor <;> omega
  · rw [h16, e2, q2 _ (by omega)]; constructor <;> omega
  · rw [h32, e2, q4 _ (by omega)]; constructor <;> omega

/-- Claim C20: for every call that gets as far as the decode, the decode
succeeding with `size > 0` produced bytes, 1 or 2 channels and 8, 16 or 32
bits, `ff_es_adec_frame` returns with
`nb_samples = size / channels / (bit_depth / 8)`, and
`nb_samples * channels * (bit_depth / 8) ≤ size`, with equality if and only
if `size` is a multiple of `channels * (bit_depth / 8)`.  When `ff_get_buffer`
succeeds, the `size` bytes copied into the frame therefore equal the payload
of its `nb_samples` samples exactly when `size` is such a multiple, and
exceed it otherwise. -/
theorem C20_sample_count_rounds_down (avctx : AVCodecContext) (frame : AVFrame)
    (got_frame : Int) (avpkt : AVPacket) (env : FrameEnv)
    (hreach : reaches_decode avctx avpkt env)
    (hd : env.decode_ret = 0) (hpos : 0 < env.decode_size)
    (hc : env.frame_info.channels = 1 ∨ env.frame_info.channels = 2)
    (hb : env.frame_info.bit_depth = 8 ∨ env.frame_info.bit_depth = 16 ∨
      env.frame_info.bit_depth = 32) :
    ∃ r, ff_es_adec_frame avctx frame got_frame avpkt env = .ok r ∧
      r.frame.nb_samples =
        (env.decode_size.tdiv env.frame_info.channels).tdiv
          (env.frame_info.bit_depth.tdiv 8) ∧
      r.frame.nb_samples * env.frame_info.channels * (env.frame_info.bit_depth.tdiv 8)
        ≤ env.decode_size ∧
      (r.frame.nb_samples * env.frame_info.channels * (env.frame_info.bit_depth.tdiv 8)
          = env.decode_size ↔
        (env.frame_info.channels * (env.frame_info.bit_depth.tdiv 8)) ∣ env.decode_size) ∧
      (0 ≤ env.get_buffer_ret →
        r.got_frame = 1 ∧ r.frame.copied = env.decode_size ∧
        ((env.frame_info.channels * (env.frame_info.bit_depth.tdiv 8)) ∣ env.decode_size →
          r.frame.nb_samples * env.frame_info.channels *
            (env.frame_info.bit_depth.tdiv 8) = r.frame.copied) ∧
        (¬ (env.frame_info.channels * (env.frame_info.bit_depth.tdiv 8)) ∣ env.decode_size →
          r.frame.nb_samples * env.frame_info.channels *
            (env.frame_info.bit_depth.tdiv 8) < r.frame.copied)) := by
  obtain ⟨hle, hiff⟩ := samples_payload env.decode_size env.frame_info.channels
    env.frame_info.bit_depth hpos hc hb
  obtain ⟨s1, input, n, gi, hst, hn, hgi, hret⟩ := hreach
  obtain ⟨_, _, _⟩ := get_stream_info_success _ _ _ _ _ hgi hret
  obtain ⟨s2, hs2⟩ := shift_defined_of_staged _ _ _ gi.avctx.priv_data _ _ _ hst
  have hr : ¬ gi.ret < 0 := by omega
  have hz : env.decode_size ≠ 0 := by omega
  have hc' : 0 < env.frame_info.channels := by omega
  have hb' : 8 ≤ env.frame_info.bit_depth := by omega
  simp only [ff_es_adec_frame, hst, Outcome.bind, hn, if_false, hgi, hr, hd, ne_eq,
    not_true_eq_false, hs2, hz, samples_of_defined _ _ hc' hb']
  by_cases hg : env.get_buffer_ret < 0
  · simp only [hg, if_true]
    refine ⟨_, rfl, rfl, hle, hiff, ?_⟩
    intro h
    omega
  · simp only [hg, if_false]
    refine ⟨_, rfl, rfl, hle, hiff, ?_⟩
    intro _
    refine ⟨rfl, rfl, hiff.mpr, ?_⟩
    intro hnd
    exact lt_of_le_of_ne hle (fun h => hnd (hiff.mp h))

/-- Claim C20 on an AAC packet for which the decoder produces 4610 bytes of
16-bit stereo: 1152 samples, whose payload is 4608 bytes. -/
theorem C20_sample_count_rounds_down_witness :
    reaches_decode (opened AV_CODEC_ID_AAC) ⟨[1, 2, 3]⟩ env_ragged ∧
    env_ragged.decode_ret = 0 ∧ 0 < env_ragged.decode_size ∧
    (env_ragged.frame_info.channels = 1 ∨ env_ragged.frame_info.channels = 2) ∧
    (env_ragged.frame_info.bit_depth = 8 ∨ env_ragged.frame_info.bit_depth = 16 ∨
      env_ragged.frame_info.bit_depth = 32) ∧
    ∃ r, ff_es_adec_frame (opened AV_CODEC_ID_AAC) blank_frame 0 ⟨[1, 2, 3]⟩ env_ragged
        = .ok r ∧
      r.frame.nb_samples =
        (env_ragged.decode_size.tdiv env_ragged.frame_info.channels).tdiv
          (env_ragged.frame_info.bit_depth.tdiv 8) ∧
      r.frame.nb_samples * env_ragged.frame_info.channels *
          (env_ragged.frame_info.bit_depth.tdiv 8) ≤ env_ragged.decode_size ∧
      (r.frame.nb_samples * env_ragged.frame_info.channels *
          (env_ragged.frame_info.bit_depth.tdiv 8) = env_ragged.decode_size ↔
        (env_ragged.frame_info.channels * (env_ragged.frame_info.bit_depth.tdiv 8)) ∣
          env_ragged.decode_size) ∧
      (0 ≤ env_ragged.get_buffer_ret →
        r.got_frame = 1 ∧ r.frame.copied = env_ragged.decode_size ∧
        ((env_ragged.frame_info.channels * (env_ragged.frame_info.bit_depth.tdiv 8)) ∣
            env_ragged.decode_size →
          r.frame.nb_samples * env_ragged.frame_info.channels *
            (env_ragged.frame_info.bit_depth.tdiv 8) = r.frame.copied) ∧
        (¬ (env_ragged.frame_info.channels * (env_ragged.frame_info.bit_depth.tdiv 8)) ∣
            env_ragged.decode_size →
          r.frame.nb_samples * env_ragged.frame_info.channels *
            (env_ragged.frame_info.bit_depth.tdiv 8) < r.frame.copied)) :=
  ⟨⟨_, _, _, _, rfl, by decide, rfl, by decide⟩, rfl, by decide, by decide, by decide,
    C20_sample_count_rounds_down (opened AV_CODEC_ID_AAC) blank_frame 0 ⟨[1, 2, 3]⟩
      env_ragged ⟨_, _, _, _, rfl, by decide, rfl, by decide⟩ rfl (by decide) (by decide)
      (by decide)⟩

end EsAudioDec
